import Mathlib

set_option maxRecDepth 100000

/-!
Shallow embedding of the WhereToBuy repository (candidate verification and
ranking pipeline for retail product search).

Source files embedded:
- WhereToBuyTC.py        (clean, verify_product, hybrid_search, query_llm_for_places)
- WhereToBuyTest.py      (clean, verify_product, hybrid_search)
- WhereToBuyfinal.py     (verify_with_brand_priority, llm_fallback_search,
                          hybrid_search_and_verify)
- FuzzyFilterMatching.py (filter_with_fuzzy_matching)
- EmbeddingFilterMatching.py (filter_with_embeddings)
- WhereToBuyfinalAPIWrapper.py (filter_with_fuzzy_matching)

External backends (SerpAPI shopping/lens search, the OpenAI chat and embedding
endpoints, MySQL persistence) are modelled as explicit inputs: the lists of
candidates a backend call would return are parameters of the orchestrator
functions, and a stage log records which backends were invoked, mirroring the
branch conditions of the source.

The string-similarity calls (rapidfuzz / fuzzywuzzy fuzz.ratio,
fuzz.partial_ratio, fuzz.token_sort_ratio, fuzz.token_set_ratio) are modelled
over ℚ from the libraries' documented definitions: the ratio of two strings is
100 * (1 - d / (|a| + |b|)) where d is the Indel (insert/delete) edit
distance; token variants tokenize on whitespace and sort; partial ratio takes
the best ratio of the shorter string against contiguous substrings of the
longer.  Integer rounding of fuzzywuzzy and IEEE float arithmetic are elided
(scores are exact rationals); Python str.lower is modelled on the ASCII range.
-/

/-- ASCII lower-casing of one character: codes 65..90 map to 97..122, all
other characters unchanged (models Python str.lower on the ASCII range). -/
def pyLower (c : Char) : Char :=
  if 65 ≤ c.toNat ∧ c.toNat ≤ 90 then Char.ofNat (c.toNat + 32) else c

/-- Python whitespace: space, tab, newline, vertical tab, form feed, CR. -/
def isPySpace (c : Char) : Bool :=
  c.toNat = 32 ∨ (9 ≤ c.toNat ∧ c.toNat ≤ 13)

/-- Characters matched by the regex class [a-z0-9]. -/
def isLowerAlnum (c : Char) : Bool :=
  (97 ≤ c.toNat ∧ c.toNat ≤ 122) ∨ (48 ≤ c.toNat ∧ c.toNat ≤ 57)

/-- Characters kept by fuzzywuzzy full_process (regex word characters
[a-zA-Z0-9_]); every other character is replaced by a space. -/
def isWordChar (c : Char) : Bool :=
  (48 ≤ c.toNat ∧ c.toNat ≤ 57) ∨ (65 ≤ c.toNat ∧ c.toNat ≤ 90) ∨
    (97 ≤ c.toNat ∧ c.toNat ≤ 122) ∨ c.toNat = 95

/-- Collapse every run of two or more space characters to a single space
(realizes the "+" of the regexes re.sub applies, once every character of a
run has been mapped to a space). -/
def collapseSpaces : List Char → List Char
  | [] => []
  | [c] => [c]
  | a :: b :: rest =>
    if a = ' ' ∧ b = ' ' then collapseSpaces (b :: rest)
    else a :: collapseSpaces (b :: rest)

/-- Remove trailing Python whitespace. -/
def dropTrail (l : List Char) : List Char :=
  (l.reverse.dropWhile isPySpace).reverse

/-- Python str.strip: remove leading and trailing whitespace. -/
def pyStripL (l : List Char) : List Char :=
  dropTrail (l.dropWhile isPySpace)

/-- Does the list start with the given needle? -/
def startsWithL : List Char → List Char → Bool
  | _, [] => true
  | [], _ :: _ => false
  | a :: as, b :: bs => a = b && startsWithL as bs

/-- Contiguous-substring test on character lists (haystack first). -/
def containsSeqL : List Char → List Char → Bool
  | [], needle => needle.isEmpty
  | a :: as, needle => startsWithL (a :: as) needle || containsSeqL as needle

/-- Python `needle in hay` on strings: contiguous substring test. -/
def pyIn (needle hay : String) : Bool :=
  containsSeqL hay.data needle.data

/-- Python truthiness of an optional string: None and "" are falsy. -/
def truthy : Option String → Bool
  | none => false
  | some s => s ≠ ""

/-- Python `x or ""` on an optional string. -/
def orEmpty (o : Option String) : String := o.getD ""

/-- Helper for pySplit: accumulate the current token (reversed). -/
def pySplitAux : List Char → List Char → List (List Char)
  | [], acc => if acc.isEmpty then [] else [acc.reverse]
  | c :: cs, acc =>
    if isPySpace c then
      if acc.isEmpty then pySplitAux cs [] else acc.reverse :: pySplitAux cs []
    else pySplitAux cs (c :: acc)

/-- Python str.split() with no argument: split on runs of whitespace,
discarding empty tokens. -/
def pySplit (l : List Char) : List (List Char) := pySplitAux l []

/-- Lexicographic comparison of character lists by code point (the order
Python sorted uses on strings). -/
def lexLe : List Char → List Char → Bool
  | [], _ => true
  | _ :: _, [] => false
  | a :: as, b :: bs =>
    if a.toNat < b.toNat then true
    else if b.toNat < a.toNat then false
    else lexLe as bs

/-- Insert into a lexLe-sorted list. -/
def insertTok (x : List Char) : List (List Char) → List (List Char)
  | [] => [x]
  | y :: ys => if lexLe x y then x :: y :: ys else y :: insertTok x ys

/-- Sort a token list as Python sorted does (insertion sort; lexLe is a
total order, and equal tokens are identical strings, so the result agrees
with any stable sort). -/
def sortTokens : List (List Char) → List (List Char)
  | [] => []
  | t :: ts => insertTok t (sortTokens ts)

/-- Python str.join with a single-space separator, on token lists. -/
def joinSp (ts : List (List Char)) : List Char :=
  List.intercalate [' '] ts

/-- Indel (insert/delete) edit distance with explicit fuel; the fuel
`|xs| + |ys|` of `indelD` is always sufficient since every recursive call
consumes at least one character. -/
def indelAux : Nat → List Char → List Char → Nat
  | 0, _, _ => 0
  | _ + 1, [], ys => ys.length
  | _ + 1, x :: xs, [] => (x :: xs).length
  | fuel + 1, x :: xs, y :: ys =>
    if x = y then indelAux fuel xs ys
    else 1 + min (indelAux fuel xs (y :: ys)) (indelAux fuel (x :: xs) ys)

/-- Indel distance between two character lists. -/
def indelD (xs ys : List Char) : Nat :=
  indelAux (xs.length + ys.length) xs ys

/-- Maximum of two rationals (Python max; written out so that it reduces in
the kernel, unlike the Lattice max instance routed through irreducible ops). -/
def maxQ (a b : ℚ) : ℚ := if a ≤ b then b else a

/-- Python int() truncation toward zero of a rational. -/
def pyTrunc (q : ℚ) : ℤ := q.num.tdiv q.den

/-- Exact multiplication of a rational by the fraction a/b, in a form built
from mkRat so that it reduces in the kernel (Rat.mul is irreducible). -/
def mulFrac (q : ℚ) (a : ℤ) (b : ℕ) : ℚ := mkRat (q.num * a) (q.den * b)

/-- fuzz.ratio as a rational: 100 * (1 - d/(|a|+|b|)) with d the indel
distance; two empty strings score 100.  Written with mkRat (equal to
100 * ((T - d) / T), see ratioQ_eq) so that it reduces in the kernel. -/
def ratioQ (xs ys : List Char) : ℚ :=
  let T := xs.length + ys.length
  if T = 0 then 100 else mkRat (100 * ((T : ℤ) - (indelD xs ys : ℤ))) T

/-- fuzz.ratio on strings. -/
def fuzzRatioQ (a b : String) : ℚ := ratioQ a.data b.data

/-- All contiguous sublists (prefixes of suffixes). -/
def infixesL (l : List Char) : List (List Char) :=
  l.tails.flatMap List.inits

/-- Maximum of a list of rationals, starting from 0. -/
def foldMaxQ (l : List ℚ) : ℚ := l.foldl maxQ 0

/-- fuzz.partial_ratio: best ratio of the shorter string against the
contiguous substrings of the longer one. -/
def partRatioQ (a b : String) : ℚ :=
  if a.data.length ≤ b.data.length then
    foldMaxQ ((infixesL b.data).map (fun w => ratioQ a.data w))
  else
    foldMaxQ ((infixesL a.data).map (fun w => ratioQ b.data w))

/-- rapidfuzz fuzz.token_sort_ratio (no preprocessing): split both strings on
whitespace, sort the tokens, join with single spaces, then take the ratio. -/
def tokenSortQR (a b : String) : ℚ :=
  ratioQ (joinSp (sortTokens (pySplit a.data))) (joinSp (sortTokens (pySplit b.data)))

/-- fuzzywuzzy utils.full_process: replace non-word characters by spaces,
lower-case, strip. -/
def fullProcessL (l : List Char) : List Char :=
  pyStripL ((l.map (fun c => if isWordChar c then c else ' ')).map pyLower)

/-- fuzzywuzzy fuzz.token_sort_ratio: full_process both strings (returning 0
if either becomes empty, per validate_string), then token-sort ratio. -/
def tokenSortQF (a b : String) : ℚ :=
  if fullProcessL a.data = [] ∨ fullProcessL b.data = [] then 0
  else ratioQ (joinSp (sortTokens (pySplit (fullProcessL a.data))))
    (joinSp (sortTokens (pySplit (fullProcessL b.data))))

/-- fuzzywuzzy fuzz.token_set_ratio: full_process both strings (0 if either
becomes empty), form the sorted token-set intersection and differences, and
take the best pairwise ratio of the three recombined strings. -/
def tokenSetQF (a b : String) : ℚ :=
  let p1 := fullProcessL a.data
  let p2 := fullProcessL b.data
  if p1 = [] ∨ p2 = [] then 0
  else
    let t1 := (pySplit p1).dedup
    let t2 := (pySplit p2).dedup
    let sect := sortTokens (t1.inter t2)
    let d12 := sortTokens (t1.filter (fun t => !(t2.contains t)))
    let d21 := sortTokens (t2.filter (fun t => !(t1.contains t)))
    let s0 := joinSp sect
    let s12 := pyStripL (s0 ++ ' ' :: joinSp d12)
    let s21 := pyStripL (s0 ++ ' ' :: joinSp d21)
    maxQ (maxQ (ratioQ s0 s12) (ratioQ s0 s21)) (ratioQ s12 s21)

/-- Python max of three values. -/
def max3Q (x y z : ℚ) : ℚ := maxQ x (maxQ y z)

/-- Lower-case a whole string (Python str.lower, ASCII model). -/
def lowerStr (s : String) : String := String.mk (s.data.map pyLower)

/-- Per-character step of the regex [^a-z0-9]+ → " " applied to lowered
text: lower the character, keep it when it is in [a-z0-9], else one space. -/
def keepAlnum (c : Char) : Char :=
  if isLowerAlnum (pyLower c) then pyLower c else ' '

/-- Per-character step of re.sub(r"\s+", " ", ...): whitespace becomes a
space, anything else is kept. -/
def wsToSp (c : Char) : Char :=
  if isPySpace c then ' ' else c

/-- Core of WhereToBuyTC.clean on character lists:
re.sub applied to the lowered text replaces every maximal run of characters
outside [a-z0-9] by one space (modelled as per-character replacement followed
by collapsing space runs), then .strip() removes outer whitespace. -/
def cleanCoreTC (l : List Char) : List Char :=
  pyStripL (collapseSpaces (l.map keepAlnum))

/-- Core of the clean of WhereToBuyTest.py / WhereToBuyfinal.py on character
lists: str(text).lower().strip(), then re.sub collapses every whitespace run
to a single space (modelled as mapping whitespace to space and collapsing
space runs). -/
def cleanCoreWS (l : List Char) : List Char :=
  collapseSpaces ((pyStripL (l.map pyLower)).map wsToSp)

namespace WhereToBuyTC

/-- WhereToBuyTC.clean: `if not text: return ""` then
`re.sub(r"[^a-z0-9]+", " ", text.lower()).strip()`. -/
def clean (text : Option String) : String :=
  match text with
  | none => ""
  | some s => if s = "" then "" else String.mk (cleanCoreTC s.data)

/-- WhereToBuyTC.verify_product: vintage gate (raw substring, short-circuit),
rapidfuzz token_sort_ratio name gate, soft varietal gate with int(conf * 0.9)
penalty.  Returns (is_match, status, confidence, reason); the numeric
interpolations of the source reason strings are elided. -/
def verify_product (target_name candidate_name : String)
    (vintage varietal : Option String) (threshold : ℚ) :
    Bool × String × ℚ × String :=
  let target_clean := clean (some target_name)
  let candidate_clean := clean (some candidate_name)
  if truthy vintage ∧ ¬ (pyIn (orEmpty vintage) candidate_name) then
    (false, "Rejected", 0, "Vintage " ++ orEmpty vintage ++ " not found in candidate")
  else
    let name_score := tokenSortQR target_clean candidate_clean
    if name_score < threshold then
      (false, "Rejected", name_score, "Name score too low")
    else
      let varietal_clean := clean varietal
      if truthy varietal ∧ varietal_clean ≠ "" ∧ ¬ pyIn varietal_clean candidate_clean then
        (true, "Likely", ((pyTrunc (mulFrac name_score 9 10) : ℤ) : ℚ), "Name matched, varietal missing")
      else
        (true, "Verified", name_score, "Name matched")

end WhereToBuyTC

namespace WhereToBuyTest

/-- WhereToBuyTest.clean (identical in WhereToBuyfinal.py):
`re.sub(r"\s+", " ", str(text).lower().strip())`, with None/empty mapped
to "". -/
def clean (text : Option String) : String :=
  match text with
  | none => ""
  | some s => if s = "" then "" else String.mk (cleanCoreWS s.data)

/-- Default e_commerce_sites list of WhereToBuyTest.verify_product. -/
def default_e_commerce : List String :=
  ["amazon", "ebay", "doordash", "ubereats", "tesco", "ocado"]

/-- WhereToBuyTest.verify_product: max-of-three fuzzy name gate, brand gate
via fuzz.partial_ratio with e-commerce-allowlist / high-name-threshold
escalation.  Returns (is_match, category, reason); numeric interpolations of
the reason strings are elided. -/
def verify_product (target_product candidate_product : String)
    (store_name brand : Option String) (threshold high_name_threshold : ℚ)
    (e_commerce_sites : Option (List String)) : Bool × String × String :=
  let sites := e_commerce_sites.getD default_e_commerce
  let target_clean := clean (some target_product)
  let candidate_clean := clean (some candidate_product)
  let store_clean := clean store_name
  let name_score := max3Q (fuzzRatioQ target_clean candidate_clean)
    (partRatioQ target_clean candidate_clean)
    (tokenSortQF target_clean candidate_clean)
  if name_score < threshold then
    (false, "Rejected", "Product name fuzzy score too low")
  else if truthy brand then
    let brand_clean := clean brand
    let brand_score := partRatioQ brand_clean candidate_clean
    if brand_score ≥ 90 then
      (true, "Verified", "Name score ok, Brand matched")
    else if sites.any (fun ecom => pyIn ecom store_clean) then
      (true, "Likely", "Brand weak but store is e-commerce")
    else if name_score ≥ high_name_threshold then
      (true, "Likely", "Brand weak, Non-e-commerce but strong name")
    else
      (false, "Rejected", "Brand mismatch, Non-e-commerce, weak name")
  else
    if sites.any (fun ecom => pyIn ecom store_clean) then
      (true, "Likely", "Brand missing but store is e-commerce")
    else if name_score ≥ high_name_threshold then
      (true, "Likely", "Brand missing, Non-e-commerce but strong name")
    else
      (false, "Rejected", "Brand missing, Non-e-commerce, weak name")

end WhereToBuyTest

namespace WhereToBuyfinal

/-- The clean nested inside verify_with_brand_priority, same body as
WhereToBuyTest.clean. -/
def clean (text : Option String) : String :=
  match text with
  | none => ""
  | some s => if s = "" then "" else String.mk (cleanCoreWS s.data)

/-- WhereToBuyfinal.verify_with_brand_priority: hard brand-substring gate,
then best of three fuzzy ratios against the threshold.  Returns
(is_match, reason); numeric interpolations of the reason strings elided. -/
def verify_with_brand_priority (target_product candidate_product : String)
    (brand : Option String) (threshold : ℚ) : Bool × String :=
  let target_clean := clean (some target_product)
  let candidate_clean := clean (some candidate_product)
  if truthy brand ∧ ¬ pyIn (clean brand) candidate_clean then
    (false, "Brand mismatch")
  else
    let best_score := max3Q (fuzzRatioQ target_clean candidate_clean)
      (partRatioQ target_clean candidate_clean)
      (tokenSortQF target_clean candidate_clean)
    (best_score ≥ threshold, "Fuzzy match score")

end WhereToBuyfinal

/-- One raw search-backend result, as extracted by the search_product /
search_with_google_lens helpers (dict with title/source/price/rating/link/
thumbnail keys; absent keys are None). -/
structure Candidate where
  product_name : String
  store_name : Option String
  price : Option String
  rating : Option ℚ
  link : Option String
  thumbnail : Option String
deriving DecidableEq

/-- One entry of the JSON array produced by the generative fallback backend
(fields may be absent). -/
structure LLMPlace where
  store_name : Option String
  url : Option String
  reason : Option String
deriving DecidableEq

/-- Which backends a pipeline invocation called. -/
structure StageLog where
  ranShopping : Bool
  ranLens : Bool
  ranLLM : Bool
deriving DecidableEq

/-- The common target_product construction
f-string "product_name producer-or-empty varietal-or-empty vintage-or-empty"
followed by .strip(). -/
def mkTarget (product_name : String) (producer varietal vintage : Option String) : String :=
  String.mk (pyStripL (product_name ++ " " ++ orEmpty producer ++ " "
    ++ orEmpty varietal ++ " " ++ orEmpty vintage).data)

namespace WhereToBuyTC

/-- A verified_results entry of WhereToBuyTC.hybrid_search: the candidate
dict updated with verification_reason / source / category / confidence, or
an LLM-fallback dict (which carries reason but no confidence). -/
structure VerifiedResult where
  product_name : String
  store_name : Option String
  price : Option String
  rating : Option ℚ
  link : Option String
  thumbnail : Option String
  verification_reason : String
  source : String
  category : String
  confidence : Option ℚ
  reason : Option String
deriving DecidableEq

/-- Outcome of the chat-completions call inside query_llm_for_places:
either it returned text that json.loads parsed into a list of places, or the
text was unparseable (json.JSONDecodeError), or the call itself raised. -/
inductive LLMReply where
  | ok (places : List LLMPlace)
  | unparseable
  | apiError
deriving DecidableEq

/-- WhereToBuyTC.query_llm_for_places: returns the parsed list on success
and [] on either failure (both exception handlers return []). -/
def query_llm_for_places : LLMReply → List LLMPlace
  | .ok places => places
  | .unparseable => []
  | .apiError => []

/-- The per-candidate verification loop of WhereToBuyTC.hybrid_search
(identical for the shopping and the lens stage up to the source tag):
verify each candidate and keep the accepted ones, enriched. -/
def screen_candidates (target_product : String) (vintage varietal : Option String)
    (threshold : ℚ) (src : String) (cands : List Candidate) : List VerifiedResult :=
  cands.filterMap (fun c =>
    match verify_product target_product c.product_name vintage varietal threshold with
    | (m, status, confidence, reason) =>
      if m then
        some { product_name := c.product_name, store_name := c.store_name,
               price := c.price, rating := c.rating, link := c.link,
               thumbnail := c.thumbnail, verification_reason := reason,
               source := src, category := status, confidence := some confidence,
               reason := none }
      else none)

/-- WhereToBuyTC.hybrid_search.  The SerpAPI and OpenAI backends are
external: shopping_results and lens_results are the lists the two search
calls would return, and llm the outcome of the fallback chat call; the
returned StageLog records which backends were invoked, mirroring the branch
conditions of the source (the lens backend is called whenever image_url is
truthy, the fallback only when verified_results is empty). -/
def hybrid_search (product_name : String)
    (image_url producer varietal vintage : Option String) (fuzzy_threshold : ℚ)
    (shopping_results lens_results : List Candidate) (llm : LLMReply) :
    List VerifiedResult × StageLog :=
  let target_product := mkTarget product_name producer varietal vintage
  let shoppingVerified := screen_candidates target_product vintage varietal
    fuzzy_threshold "Google Shopping" shopping_results
  let runLens := truthy image_url
  let lensVerified := if runLens then
      screen_candidates target_product vintage varietal fuzzy_threshold
        "Google Lens" lens_results
    else []
  let verified := shoppingVerified ++ lensVerified
  let runLLM := verified.isEmpty
  let withFallback :=
    if runLLM then
      verified ++ (query_llm_for_places llm).map (fun p =>
        { product_name := target_product,
          store_name := some (p.store_name.getD "Unknown Store"),
          price := none, rating := none,
          link := some (p.url.getD ""), thumbnail := none,
          verification_reason := "AI-generated suggestion (no direct match found)",
          source := "LLM Fallback", category := "Suggested",
          confidence := none,
          reason := some (p.reason.getD "AI recommendation") })
    else verified
  (withFallback.take 3, ⟨true, runLens, runLLM⟩)

end WhereToBuyTC

namespace WhereToBuyTest

/-- A verified_results entry of WhereToBuyTest.hybrid_search: the candidate
dict updated with verification_reason / source / category. -/
structure VerifiedResult where
  product_name : String
  store_name : Option String
  price : Option String
  rating : Option ℚ
  link : Option String
  thumbnail : Option String
  verification_reason : String
  source : String
  category : String
deriving DecidableEq

/-- The per-candidate verification loop of WhereToBuyTest.hybrid_search
(identical for the two stages up to the source tag). -/
def screen_candidates (target_product : String) (producer : Option String)
    (threshold high_name_threshold : ℚ) (src : String) (cands : List Candidate) :
    List VerifiedResult :=
  cands.filterMap (fun c =>
    match verify_product target_product c.product_name c.store_name producer
      threshold high_name_threshold none with
    | (m, category, reason) =>
      if m then
        some { product_name := c.product_name, store_name := c.store_name,
               price := c.price, rating := c.rating, link := c.link,
               thumbnail := c.thumbnail, verification_reason := reason,
               source := src, category := category }
      else none)

/-- WhereToBuyTest.hybrid_search.  Backends are external (see
WhereToBuyTC.hybrid_search); there is no fallback stage (it is commented out
in the source).  The lens backend runs only when an image is given AND
(shopping returned nothing OR nothing was verified); the final assembly
first surfaces one Likely result, then fills to 3 skipping entries already
present (dict membership test of the source), then truncates to 3. -/
def hybrid_search (product_name : String)
    (image_url producer varietal vintage : Option String)
    (fuzzy_threshold high_name_threshold : ℚ)
    (shopping_results lens_results : List Candidate) :
    List VerifiedResult × StageLog :=
  let target_product := mkTarget product_name producer varietal vintage
  let shoppingVerified := screen_candidates target_product producer
    fuzzy_threshold high_name_threshold "Google Shopping" shopping_results
  let runLens := truthy image_url &&
    (shopping_results.isEmpty || shoppingVerified.isEmpty)
  let lensVerified := if runLens then
      screen_candidates target_product producer fuzzy_threshold
        high_name_threshold "Google Lens" lens_results
    else []
  let verified := shoppingVerified ++ lensVerified
  let base := match verified.find? (fun r => r.category = "Likely") with
    | some r => [r]
    | none => []
  let final := verified.foldl (fun acc r =>
    if ¬ (r ∈ acc) ∧ acc.length < 3 then acc ++ [r] else acc) base
  (final.take 3, ⟨true, runLens, false⟩)

end WhereToBuyTest

namespace WhereToBuyfinal

/-- A result entry of WhereToBuyfinal.hybrid_search_and_verify: either a
verified candidate (with verification_reason and link) or a formatted
fallback suggestion (with url and reason). -/
structure FinalResult where
  product_name : String
  store_name : Option String
  price : Option String
  rating : Option ℚ
  link : Option String
  thumbnail : Option String
  verification_reason : Option String
  source : String
  url : Option String
  reason : Option String
deriving DecidableEq

/-- Outcome of the chat-completions call inside llm_fallback_search: either
the call returned and safe_json_extract produced this (possibly empty) list,
or the call itself raised (there is no try/except in this variant, so the
exception propagates). -/
inductive FallbackOutcome where
  | reply (extracted : List LLMPlace)
  | apiError
deriving DecidableEq

/-- WhereToBuyfinal.llm_fallback_search: substitute one synthesized generic
suggestion when extraction yields an empty list; none models the propagated
exception of a failing backend call. -/
def llm_fallback_search (product_name : String) (fb : FallbackOutcome) :
    Option (List LLMPlace) :=
  match fb with
  | .apiError => none
  | .reply l =>
    if l.isEmpty then
      some [{ store_name := some "Generic UK Beverage Retailer", url := some "",
              reason := some ("Suggested fallback store for " ++ product_name) }]
    else some l

/-- The per-candidate verification loop of hybrid_search_and_verify
(identical for the two stages up to the source tag). -/
def screen_candidates (target_product : String) (brand : Option String)
    (threshold : ℚ) (src : String) (cands : List Candidate) : List FinalResult :=
  cands.filterMap (fun c =>
    match verify_with_brand_priority target_product c.product_name brand threshold with
    | (m, reason) =>
      if m then
        some { product_name := c.product_name, store_name := c.store_name,
               price := c.price, rating := c.rating, link := c.link,
               thumbnail := c.thumbnail, verification_reason := some reason,
               source := src, url := none, reason := none }
      else none)

/-- The fallback formatting loop of hybrid_search_and_verify (enumerate
with defaults per field). -/
def format_fallback (product_name : String) (places : List LLMPlace) :
    List FinalResult :=
  places.enum.map (fun pr =>
    { product_name := product_name,
      store_name := some (pr.2.store_name.getD ("Store " ++ toString (pr.1 + 1))),
      price := none, rating := none, link := none, thumbnail := none,
      verification_reason := none,
      source := "LLM Fallback",
      url := some (pr.2.url.getD ""),
      reason := some (pr.2.reason.getD "LLM expert suggestion") })

/-- WhereToBuyfinal.hybrid_search_and_verify.  Backends are external (see
WhereToBuyTC.hybrid_search).  Any verified shopping result returns early;
otherwise the lens stage runs only when image_url is truthy and returns
early on success; otherwise the fallback stage always runs.  The Option
result is none when the uncaught fallback backend exception propagates. -/
def hybrid_search_and_verify (product_name : String)
    (image_url producer varietal vintage : Option String) (fuzzy_threshold : ℚ)
    (shopping_results lens_results : List Candidate) (fb : FallbackOutcome) :
    Option (List FinalResult) × StageLog :=
  let target_product := mkTarget product_name producer varietal vintage
  let shoppingVerified := screen_candidates target_product producer
    fuzzy_threshold "Google Shopping" shopping_results
  if ¬ shoppingVerified.isEmpty then
    (some shoppingVerified, ⟨true, false, false⟩)
  else
    let runLens := truthy image_url
    let lensVerified := if runLens then
        screen_candidates target_product producer fuzzy_threshold
          "Google Lens" lens_results
      else []
    if runLens && !lensVerified.isEmpty then
      (some lensVerified, ⟨true, true, false⟩)
    else
      match llm_fallback_search product_name fb with
      | none => (none, ⟨true, runLens, true⟩)
      | some places => (some (format_fallback product_name places), ⟨true, runLens, true⟩)

end WhereToBuyfinal

/-- Insert into a descending-by-score sorted list, keeping earlier-listed
entries first among equal scores (matches Python stable sort with
reverse=True). -/
def insertDesc {α : Type} (x : α × ℚ) : List (α × ℚ) → List (α × ℚ)
  | [] => [x]
  | y :: ys => if y.2 ≤ x.2 then x :: y :: ys else y :: insertDesc x ys

/-- matches.sort(key=similarity_score, reverse=True). -/
def sortDesc {α : Type} : List (α × ℚ) → List (α × ℚ)
  | [] => []
  | m :: ms => insertDesc m (sortDesc ms)

namespace FuzzyFilterMatching

/-- The negative keyword list of FuzzyFilterMatching.py (and of the API
wrapper, which includes "miniature" as well). -/
def negative_keywords : List String :=
  ["empty", "bottle only", "decanted", "decant", "used",
   "vintage bottle", "old bottle", "collector", "display",
   "ornamental", "set of", "pack of", "lot of", "souvenir", "miniature"]

/-- FuzzyFilterMatching.filter_with_fuzzy_matching: drop candidates whose
lowered name contains a negative keyword, keep those whose
fuzz.token_set_ratio against the lowered target reaches the threshold
(pairing each kept item with its similarity_score), sorted by score
descending. -/
def filter_with_fuzzy_matching (results : List Candidate)
    (target_product : String) (threshold : ℚ) : List (Candidate × ℚ) :=
  sortDesc (results.filterMap (fun item =>
    if negative_keywords.any (fun keyword => pyIn keyword (lowerStr item.product_name))
    then none
    else if threshold ≤ tokenSetQF (lowerStr target_product) (lowerStr item.product_name)
    then some (item, tokenSetQF (lowerStr target_product) (lowerStr item.product_name))
    else none))

end FuzzyFilterMatching

namespace EmbeddingFilterMatching

/-- The negative keyword list of EmbeddingFilterMatching.py (no
"miniature"). -/
def negative_keywords : List String :=
  ["empty", "bottle only", "decanted", "decant", "used",
   "vintage bottle", "old bottle", "collector", "display",
   "ornamental", "set of", "pack of", "lot of", "souvenir"]

/-- EmbeddingFilterMatching.filter_with_embeddings.  The OpenAI embedding
backend is external: the batched get_embeddings_batch call on the target and
all candidate names, followed by cosine_similarity of the target vector with
each candidate vector, is modelled by cosine_scores, whose i-th entry is the
cosine score of the i-th candidate (the zip of the source loop). -/
def filter_with_embeddings (results : List Candidate)
    (cosine_scores : List ℚ) (threshold : ℚ) : List (Candidate × ℚ) :=
  sortDesc ((results.zip cosine_scores).filterMap (fun pr =>
    if negative_keywords.any (fun keyword => pyIn keyword (lowerStr pr.1.product_name))
    then none
    else if threshold ≤ pr.2 then some (pr.1, pr.2) else none))

end EmbeddingFilterMatching

namespace WhereToBuyfinalAPIWrapper

/-- A raw search-backend result as the API wrapper extracts it; the title
may be absent (None). -/
structure Item where
  product_name : Option String
  store_name : Option String
  price : Option String
  rating : Option ℚ
  link : Option String
  thumbnail : Option String
deriving DecidableEq

/-- Negative keyword list of the API wrapper (same as
FuzzyFilterMatching.py). -/
def negative_keywords : List String :=
  ["empty", "bottle only", "decanted", "decant", "used",
   "vintage bottle", "old bottle", "collector", "display",
   "ornamental", "set of", "pack of", "lot of", "souvenir", "miniature"]

/-- The conditional expression
`item['product_name'].lower() if item['product_name'] else ""` of the API
wrapper: a falsy (absent or empty) title is replaced by "". -/
def pname_or_empty (o : Option String) : String :=
  match o with
  | some s => if s = "" then "" else lowerStr s
  | none => ""

/-- WhereToBuyfinalAPIWrapper.filter_with_fuzzy_matching: as in
FuzzyFilterMatching.py, but a falsy (absent or empty) product_name is
replaced by "" before the keyword check and the scoring. -/
def filter_with_fuzzy_matching (results : List Item)
    (target_product : String) (threshold : ℚ) : List (Item × ℚ) :=
  sortDesc (results.filterMap (fun item =>
    if negative_keywords.any (fun k => pyIn k (pname_or_empty item.product_name))
    then none
    else if threshold ≤ tokenSetQF (lowerStr target_product) (pname_or_empty item.product_name)
    then some (item, tokenSetQF (lowerStr target_product) (pname_or_empty item.product_name))
    else none))

end WhereToBuyfinalAPIWrapper


/-! ### Support lemmas: similarity score bounds -/

theorem indelAux_le (fuel : Nat) : ∀ xs ys : List Char,
    indelAux fuel xs ys ≤ xs.length + ys.length := by
  induction fuel with
  | zero => intro xs ys; simp [indelAux]
  | succ f ih =>
    intro xs ys
    match xs, ys with
    | [], ys => simp [indelAux]
    | x :: xs, [] => simp [indelAux]
    | x :: xs, y :: ys =>
      simp only [indelAux, List.length_cons]
      split
      · have := ih xs ys; omega
      · have h1 := ih xs (y :: ys)
        have h2 := ih (x :: xs) ys
        simp only [List.length_cons] at h1 h2
        omega

theorem indelD_le (xs ys : List Char) : indelD xs ys ≤ xs.length + ys.length :=
  indelAux_le _ xs ys

theorem indelAux_self (fuel : Nat) : ∀ xs : List Char, indelAux fuel xs xs = 0 := by
  induction fuel with
  | zero => intro xs; simp [indelAux]
  | succ f ih =>
    intro xs
    match xs with
    | [] => simp [indelAux]
    | x :: xs => simp [indelAux, ih]

theorem indelD_self (xs : List Char) : indelD xs xs = 0 :=
  indelAux_self _ xs

theorem ratioQ_eq (xs ys : List Char) (h : xs.length + ys.length ≠ 0) :
    ratioQ xs ys =
      100 * ((((xs.length + ys.length : Nat) : ℚ) - (indelD xs ys : ℚ)) /
        ((xs.length + ys.length : Nat) : ℚ)) := by
  simp only [ratioQ, if_neg h]
  rw [Rat.mkRat_eq_div]
  push_cast
  ring

theorem ratioQ_nonneg (xs ys : List Char) : 0 ≤ ratioQ xs ys := by
  by_cases h : xs.length + ys.length = 0
  · simp [ratioQ, h]
  · rw [ratioQ_eq xs ys h]
    have hd : (indelD xs ys : ℚ) ≤ ((xs.length + ys.length : Nat) : ℚ) := by
      exact_mod_cast indelD_le xs ys
    have hT : (0 : ℚ) < ((xs.length + ys.length : Nat) : ℚ) := by
      exact_mod_cast Nat.pos_of_ne_zero h
    have hq : 0 ≤ (((xs.length + ys.length : Nat) : ℚ) - (indelD xs ys : ℚ)) /
        ((xs.length + ys.length : Nat) : ℚ) :=
      div_nonneg (by linarith) (le_of_lt hT)
    linarith

theorem ratioQ_le_100 (xs ys : List Char) : ratioQ xs ys ≤ 100 := by
  by_cases h : xs.length + ys.length = 0
  · simp [ratioQ, h]
  · rw [ratioQ_eq xs ys h]
    have hd : (0 : ℚ) ≤ (indelD xs ys : ℚ) := by positivity
    have hT : (0 : ℚ) < ((xs.length + ys.length : Nat) : ℚ) := by
      exact_mod_cast Nat.pos_of_ne_zero h
    have hq : (((xs.length + ys.length : Nat) : ℚ) - (indelD xs ys : ℚ)) /
        ((xs.length + ys.length : Nat) : ℚ) ≤ 1 := by
      rw [div_le_one hT]; linarith
    linarith

theorem ratioQ_self (xs : List Char) : ratioQ xs xs = 100 := by
  by_cases h : xs.length + xs.length = 0
  · simp [ratioQ, h]
  · rw [ratioQ_eq xs xs h, indelD_self]
    have hT : (0 : ℚ) < ((xs.length + xs.length : Nat) : ℚ) := by
      exact_mod_cast Nat.pos_of_ne_zero h
    rw [Nat.cast_zero, sub_zero, div_self (ne_of_gt hT)]
    ring

theorem le_maxQ_left (a b : ℚ) : a ≤ maxQ a b := by
  unfold maxQ; split
  · assumption
  · exact le_rfl

theorem le_maxQ_right (a b : ℚ) : b ≤ maxQ a b := by
  unfold maxQ; split
  · exact le_rfl
  · linarith [lt_of_not_le (by assumption : ¬ a ≤ b)]

theorem maxQ_le {a b c : ℚ} (ha : a ≤ c) (hb : b ≤ c) : maxQ a b ≤ c := by
  unfold maxQ; split <;> assumption

theorem le_foldl_maxQ_acc (l : List ℚ) (acc : ℚ) : acc ≤ l.foldl maxQ acc := by
  induction l generalizing acc with
  | nil => simp
  | cons a l ih =>
    simp only [List.foldl_cons]
    exact le_trans (le_maxQ_left acc a) (ih (maxQ acc a))

theorem le_foldl_maxQ_of_mem {x : ℚ} {l : List ℚ} (acc : ℚ) (hx : x ∈ l) :
    x ≤ l.foldl maxQ acc := by
  induction l generalizing acc with
  | nil => cases hx
  | cons a l ih =>
    simp only [List.foldl_cons]
    rcases List.mem_cons.mp hx with rfl | hx
    · exact le_trans (le_maxQ_right acc x) (le_foldl_maxQ_acc l (maxQ acc x))
    · exact ih (maxQ acc a) hx

theorem foldl_maxQ_le {l : List ℚ} {c acc : ℚ} (hacc : acc ≤ c)
    (h : ∀ x ∈ l, x ≤ c) : l.foldl maxQ acc ≤ c := by
  induction l generalizing acc with
  | nil => simpa
  | cons a l ih =>
    simp only [List.foldl_cons]
    exact ih (maxQ_le hacc (h a (by simp))) (fun x hx => h x (by simp [hx]))

theorem foldMaxQ_nonneg (l : List ℚ) : 0 ≤ foldMaxQ l :=
  le_foldl_maxQ_acc l 0

theorem foldMaxQ_le {l : List ℚ} {c : ℚ} (hc : 0 ≤ c) (h : ∀ x ∈ l, x ≤ c) :
    foldMaxQ l ≤ c :=
  foldl_maxQ_le hc h

theorem partRatioQ_nonneg (a b : String) : 0 ≤ partRatioQ a b := by
  unfold partRatioQ
  split <;> exact foldMaxQ_nonneg _

theorem partRatioQ_le_100 (a b : String) : partRatioQ a b ≤ 100 := by
  unfold partRatioQ
  split <;>
  · apply foldMaxQ_le (by norm_num)
    intro x hx
    obtain ⟨w, _, rfl⟩ := List.mem_map.mp hx
    exact ratioQ_le_100 _ _

theorem self_mem_infixesL (l : List Char) : l ∈ infixesL l := by
  unfold infixesL
  rw [List.mem_flatMap]
  exact ⟨l, (List.mem_tails l l).mpr (List.suffix_refl l),
    (List.mem_inits l l).mpr (List.prefix_refl l)⟩

theorem partRatioQ_self (a : String) : partRatioQ a a = 100 := by
  have hmem : (100 : ℚ) ∈ (infixesL a.data).map (fun w => ratioQ a.data w) :=
    List.mem_map.mpr ⟨a.data, self_mem_infixesL a.data, ratioQ_self a.data⟩
  have hle : (100 : ℚ) ≤ partRatioQ a a := by
    unfold partRatioQ
    rw [if_pos le_rfl]
    exact le_foldl_maxQ_of_mem 0 hmem
  linarith [partRatioQ_le_100 a a]

theorem fuzzRatioQ_self (a : String) : fuzzRatioQ a a = 100 :=
  ratioQ_self a.data

theorem fuzzRatioQ_nonneg (a b : String) : 0 ≤ fuzzRatioQ a b :=
  ratioQ_nonneg a.data b.data

theorem fuzzRatioQ_le_100 (a b : String) : fuzzRatioQ a b ≤ 100 :=
  ratioQ_le_100 a.data b.data

theorem tokenSortQR_self (a : String) : tokenSortQR a a = 100 := by
  unfold tokenSortQR
  exact ratioQ_self _

theorem tokenSortQR_nonneg (a b : String) : 0 ≤ tokenSortQR a b := by
  unfold tokenSortQR
  exact ratioQ_nonneg _ _

theorem tokenSortQR_le_100 (a b : String) : tokenSortQR a b ≤ 100 := by
  unfold tokenSortQR
  exact ratioQ_le_100 _ _

theorem tokenSortQF_nonneg (a b : String) : 0 ≤ tokenSortQF a b := by
  unfold tokenSortQF
  split
  · norm_num
  · exact ratioQ_nonneg _ _

theorem tokenSortQF_le_100 (a b : String) : tokenSortQF a b ≤ 100 := by
  unfold tokenSortQF
  split
  · norm_num
  · exact ratioQ_le_100 _ _

/-! ### Support lemmas: characters -/

theorem toNat_ofNat_small (n : Nat) (h : n < 55296) : (Char.ofNat n).toNat = n := by
  have hv : n.isValidChar := Or.inl h
  rw [Char.ofNat, dif_pos hv]
  rfl

theorem pyLower_eq_self {c : Char} (h : ¬ (65 ≤ c.toNat ∧ c.toNat ≤ 90)) :
    pyLower c = c := by
  unfold pyLower
  rw [if_neg h]

theorem pyLower_toNat (c : Char) :
    pyLower c = c ∨
      ((pyLower c).toNat = c.toNat + 32 ∧ 65 ≤ c.toNat ∧ c.toNat ≤ 90) := by
  unfold pyLower
  split
  · next h => exact Or.inr ⟨toNat_ofNat_small _ (by omega), h⟩
  · exact Or.inl rfl

theorem pyLower_idem (c : Char) : pyLower (pyLower c) = pyLower c := by
  rcases pyLower_toNat c with h | ⟨h1, h2⟩
  · rw [h]
    exact h
  · apply pyLower_eq_self
    rw [h1]
    omega

theorem pyLower_of_isPySpace {c : Char} (h : isPySpace c = true) : pyLower c = c := by
  apply pyLower_eq_self
  simp [isPySpace] at h
  omega

theorem not_isLowerAlnum_of_isPySpace {c : Char} (h : isPySpace c = true) :
    isLowerAlnum c = false := by
  simp [isPySpace] at h
  simp [isLowerAlnum]
  omega

theorem keepAlnum_cases (c : Char) :
    isLowerAlnum (keepAlnum c) = true ∨ keepAlnum c = ' ' := by
  unfold keepAlnum
  split
  · next h => exact Or.inl h
  · exact Or.inr rfl

theorem keepAlnum_eq_self {c : Char} (h : isLowerAlnum c = true) :
    keepAlnum c = c := by
  have hlow : pyLower c = c := by
    apply pyLower_eq_self
    simp [isLowerAlnum] at h
    omega
  unfold keepAlnum
  rw [hlow, if_pos h]

theorem keepAlnum_space : keepAlnum ' ' = ' ' := by decide

theorem isPySpace_space : isPySpace ' ' = true := by decide

theorem not_isPySpace_of_isLowerAlnum {c : Char} (h : isLowerAlnum c = true) :
    isPySpace c = false := by
  simp [isLowerAlnum] at h
  simp [isPySpace]
  omega

theorem wsToSp_eq_self {c : Char} (h : isPySpace c = false) : wsToSp c = c := by
  unfold wsToSp
  rw [h]
  simp

theorem wsToSp_space : wsToSp ' ' = ' ' := by decide

/-! ### Support lemmas: collapseSpaces -/

/-- Adjacent-space-free lists: no two neighbouring characters are both a
space. -/
def noDSp (l : List Char) : Prop :=
  List.Chain' (fun a b => ¬ (a = ' ' ∧ b = ' ')) l

theorem mem_of_mem_collapseSpaces :
    ∀ (l : List Char) (c : Char), c ∈ collapseSpaces l → c ∈ l
  | [], c, h => by simp [collapseSpaces] at h
  | [a], c, h => by simpa [collapseSpaces] using h
  | a :: b :: rest, c, h => by
    by_cases hab : a = ' ' ∧ b = ' '
    · simp only [collapseSpaces, if_pos hab] at h
      have := mem_of_mem_collapseSpaces (b :: rest) c h
      exact List.mem_cons_of_mem a this
    · simp only [collapseSpaces, if_neg hab] at h
      rcases List.mem_cons.mp h with rfl | h
      · exact List.mem_cons_self c (b :: rest)
      · exact List.mem_cons_of_mem a (mem_of_mem_collapseSpaces (b :: rest) c h)

theorem collapseSpaces_cons_head :
    ∀ (b : Char) (rest : List Char), ∃ t, collapseSpaces (b :: rest) = b :: t
  | _, [] => ⟨[], rfl⟩
  | b, c :: rest => by
    by_cases h : b = ' ' ∧ c = ' '
    · obtain ⟨t, ht⟩ := collapseSpaces_cons_head c rest
      refine ⟨t, ?_⟩
      simp only [collapseSpaces, if_pos h, ht]
      rw [h.1, h.2]
    · exact ⟨collapseSpaces (c :: rest), by simp only [collapseSpaces, if_neg h]⟩

theorem noDSp_collapseSpaces : ∀ l : List Char, noDSp (collapseSpaces l)
  | [] => by simp [collapseSpaces, noDSp]
  | [a] => by simp [collapseSpaces, noDSp]
  | a :: b :: rest => by
    by_cases h : a = ' ' ∧ b = ' '
    · simp only [collapseSpaces, if_pos h]
      exact noDSp_collapseSpaces (b :: rest)
    · simp only [collapseSpaces, if_neg h]
      obtain ⟨t, ht⟩ := collapseSpaces_cons_head b rest
      rw [ht]
      have ih := noDSp_collapseSpaces (b :: rest)
      rw [ht] at ih
      exact (List.chain'_cons).mpr ⟨h, ih⟩

theorem collapseSpaces_eq_self : ∀ {l : List Char}, noDSp l → collapseSpaces l = l
  | [], _ => rfl
  | [_], _ => rfl
  | a :: b :: rest, h => by
    rw [noDSp, List.chain'_cons] at h
    simp only [collapseSpaces, if_neg h.1]
    rw [collapseSpaces_eq_self h.2]

theorem getLast?_collapseSpaces :
    ∀ l : List Char, (collapseSpaces l).getLast? = l.getLast?
  | [] => rfl
  | [_] => rfl
  | a :: b :: rest => by
    by_cases h : a = ' ' ∧ b = ' '
    · simp only [collapseSpaces, if_pos h]
      rw [getLast?_collapseSpaces (b :: rest), List.getLast?_cons_cons]
    · simp only [collapseSpaces, if_neg h]
      obtain ⟨t, ht⟩ := collapseSpaces_cons_head b rest
      rw [ht]
      have ih := getLast?_collapseSpaces (b :: rest)
      rw [ht] at ih
      rw [List.getLast?_cons_cons, ih, List.getLast?_cons_cons]

/-! ### Support lemmas: pyStripL -/

theorem head?_dropWhile_false {p : Char → Bool} :
    ∀ (l : List Char) {c : Char}, (l.dropWhile p).head? = some c → p c = false
  | [], c, h => by simp [List.dropWhile] at h
  | a :: l, c, h => by
    rw [List.dropWhile_cons] at h
    by_cases hpa : p a = true
    · rw [if_pos hpa] at h
      exact head?_dropWhile_false l h
    · rw [if_neg hpa] at h
      simp at h
      subst h
      simpa using hpa

theorem dropWhile_eq_self_of_head? {p : Char → Bool} {l : List Char}
    (h : ∀ c, l.head? = some c → p c = false) : l.dropWhile p = l := by
  cases l with
  | nil => rfl
  | cons a l =>
    rw [List.dropWhile_cons, if_neg]
    simp [h a rfl]

theorem dropTrail_idem (l : List Char) : dropTrail (dropTrail l) = dropTrail l := by
  unfold dropTrail
  rw [List.reverse_reverse, List.dropWhile_idempotent]

theorem dropTrail_isPref (l : List Char) : dropTrail l <+: l := by
  unfold dropTrail
  have h : (l.reverse.dropWhile isPySpace).reverse <+: l.reverse.reverse :=
    List.reverse_prefix.mpr (List.dropWhile_suffix isPySpace)
  rwa [List.reverse_reverse] at h

theorem mem_dropTrail {c : Char} {l : List Char} (h : c ∈ dropTrail l) : c ∈ l :=
  ((dropTrail_isPref l).sublist).mem h

theorem mem_pyStripL {c : Char} {l : List Char} (h : c ∈ pyStripL l) : c ∈ l := by
  unfold pyStripL at h
  exact (List.dropWhile_sublist isPySpace).mem (mem_dropTrail h)

theorem head?_of_isPref {l₁ l₂ : List Char} {c : Char} (hp : l₁ <+: l₂)
    (h : l₁.head? = some c) : l₂.head? = some c := by
  obtain ⟨t, rfl⟩ := hp
  cases l₁ with
  | nil => simp at h
  | cons a l => simpa using h

theorem dropWhile_dropTrail_eq {z : List Char}
    (hz : ∀ c, z.head? = some c → isPySpace c = false) :
    (dropTrail z).dropWhile isPySpace = dropTrail z := by
  apply dropWhile_eq_self_of_head?
  intro c hc
  exact hz c (head?_of_isPref (dropTrail_isPref z) hc)

theorem pyStripL_idem (l : List Char) : pyStripL (pyStripL l) = pyStripL l := by
  show dropTrail ((dropTrail (l.dropWhile isPySpace)).dropWhile isPySpace)
    = dropTrail (l.dropWhile isPySpace)
  rw [dropWhile_dropTrail_eq (fun c hc => head?_dropWhile_false l hc)]
  exact dropTrail_idem _

theorem head?_pyStripL_false {l : List Char} {c : Char}
    (h : (pyStripL l).head? = some c) : isPySpace c = false := by
  unfold pyStripL at h
  exact head?_dropWhile_false l
    (head?_of_isPref (dropTrail_isPref (l.dropWhile isPySpace)) h)

theorem getLast?_dropTrail_false {l : List Char} {c : Char}
    (h : (dropTrail l).getLast? = some c) : isPySpace c = false := by
  unfold dropTrail at h
  rw [List.getLast?_reverse] at h
  exact head?_dropWhile_false l.reverse h

theorem getLast?_pyStripL_false {l : List Char} {c : Char}
    (h : (pyStripL l).getLast? = some c) : isPySpace c = false :=
  getLast?_dropTrail_false h

theorem dropTrail_eq_self_of_getLast? {l : List Char}
    (h : ∀ c, l.getLast? = some c → isPySpace c = false) : dropTrail l = l := by
  unfold dropTrail
  rw [dropWhile_eq_self_of_head? (fun c hc => h c (by rwa [List.head?_reverse] at hc)),
    List.reverse_reverse]

theorem pyStripL_eq_self {l : List Char}
    (hh : ∀ c, l.head? = some c → isPySpace c = false)
    (hl : ∀ c, l.getLast? = some c → isPySpace c = false) : pyStripL l = l := by
  unfold pyStripL
  rw [dropWhile_eq_self_of_head? hh]
  exact dropTrail_eq_self_of_getLast? hl

theorem pyStripL_eq_nil {l : List Char} (h : ∀ c ∈ l, isPySpace c = true) :
    pyStripL l = [] := by
  unfold pyStripL
  rw [List.dropWhile_eq_nil_iff.mpr h]
  rfl

/-! ### Support lemmas: normalizer idempotence -/

theorem noDSp_reverse {l : List Char} (h : noDSp l) : noDSp l.reverse := by
  rw [noDSp, List.chain'_reverse]
  exact List.Chain'.imp (fun a b hab hc => hab ⟨hc.2, hc.1⟩) h

theorem noDSp_dropWhile {p : Char → Bool} : ∀ {l : List Char},
    noDSp l → noDSp (l.dropWhile p)
  | [], h => h
  | a :: l, h => by
    rw [List.dropWhile_cons]
    split
    · exact noDSp_dropWhile (List.Chain'.tail h)
    · exact h

theorem noDSp_dropTrail {l : List Char} (h : noDSp l) : noDSp (dropTrail l) :=
  noDSp_reverse (noDSp_dropWhile (noDSp_reverse h))

theorem noDSp_pyStripL {l : List Char} (h : noDSp l) : noDSp (pyStripL l) :=
  noDSp_dropTrail (noDSp_dropWhile h)

theorem mem_cleanCoreTC {c : Char} {l : List Char} (h : c ∈ cleanCoreTC l) :
    ∃ d ∈ l, keepAlnum d = c := by
  unfold cleanCoreTC at h
  exact List.mem_map.mp (mem_of_mem_collapseSpaces _ _ (mem_pyStripL h))

theorem cleanCoreTC_chars {c : Char} {l : List Char} (h : c ∈ cleanCoreTC l) :
    isLowerAlnum c = true ∨ c = ' ' := by
  obtain ⟨d, _, rfl⟩ := mem_cleanCoreTC h
  exact keepAlnum_cases d

theorem keepAlnum_of_chars {c : Char} (h : isLowerAlnum c = true ∨ c = ' ') :
    keepAlnum c = c := by
  rcases h with h | rfl
  · exact keepAlnum_eq_self h
  · exact keepAlnum_space

theorem cleanCoreTC_idem (l : List Char) :
    cleanCoreTC (cleanCoreTC l) = cleanCoreTC l := by
  have hmap : (cleanCoreTC l).map keepAlnum = cleanCoreTC l := by
    have h1 : (cleanCoreTC l).map keepAlnum = (cleanCoreTC l).map id :=
      List.map_congr_left (fun c hc => keepAlnum_of_chars (cleanCoreTC_chars hc))
    rw [h1, List.map_id]
  have hnd : noDSp (cleanCoreTC l) := noDSp_pyStripL (noDSp_collapseSpaces _)
  show pyStripL (collapseSpaces ((cleanCoreTC l).map keepAlnum)) = cleanCoreTC l
  rw [hmap, collapseSpaces_eq_self hnd]
  exact pyStripL_eq_self (fun c hc => head?_pyStripL_false hc)
    (fun c hc => getLast?_pyStripL_false hc)

theorem wsToSp_out (c : Char) :
    wsToSp c = ' ' ∨ (wsToSp c = c ∧ isPySpace c = false) := by
  unfold wsToSp
  split
  · exact Or.inl rfl
  · next h => exact Or.inr ⟨rfl, by simpa using h⟩

theorem cleanCoreWS_chars {c : Char} {l : List Char} (h : c ∈ cleanCoreWS l) :
    pyLower c = c ∧ wsToSp c = c := by
  unfold cleanCoreWS at h
  obtain ⟨d, hd, rfl⟩ := List.mem_map.mp (mem_of_mem_collapseSpaces _ _ h)
  obtain ⟨e, _, rfl⟩ := List.mem_map.mp (mem_pyStripL hd)
  rcases wsToSp_out (pyLower e) with hc | ⟨hc, hsp⟩ <;> rw [hc]
  · exact ⟨by decide, by decide⟩
  · exact ⟨pyLower_idem e, wsToSp_eq_self hsp⟩

theorem head?_collapseSpaces (l : List Char) :
    (collapseSpaces l).head? = l.head? := by
  cases l with
  | nil => rfl
  | cons b rest =>
    obtain ⟨t, ht⟩ := collapseSpaces_cons_head b rest
    rw [ht]
    rfl

theorem head?_cleanCoreWS_false {l : List Char} {c : Char}
    (h : (cleanCoreWS l).head? = some c) : isPySpace c = false := by
  unfold cleanCoreWS at h
  rw [head?_collapseSpaces, List.head?_map] at h
  cases hm : (pyStripL (l.map pyLower)).head? with
  | none => rw [hm] at h; simp at h
  | some d =>
    rw [hm] at h
    simp at h
    have hd := head?_pyStripL_false hm
    rw [← h, wsToSp_eq_self hd]
    exact hd

theorem getLast?_cleanCoreWS_false {l : List Char} {c : Char}
    (h : (cleanCoreWS l).getLast? = some c) : isPySpace c = false := by
  unfold cleanCoreWS at h
  rw [getLast?_collapseSpaces, List.getLast?_map] at h
  cases hm : (pyStripL (l.map pyLower)).getLast? with
  | none => rw [hm] at h; simp at h
  | some d =>
    rw [hm] at h
    simp at h
    have hd := getLast?_pyStripL_false hm
    rw [← h, wsToSp_eq_self hd]
    exact hd

theorem cleanCoreWS_idem (l : List Char) :
    cleanCoreWS (cleanCoreWS l) = cleanCoreWS l := by
  have hlow : (cleanCoreWS l).map pyLower = cleanCoreWS l := by
    have h1 : (cleanCoreWS l).map pyLower = (cleanCoreWS l).map id :=
      List.map_congr_left (fun c hc => (cleanCoreWS_chars hc).1)
    rw [h1, List.map_id]
  have hws : (cleanCoreWS l).map wsToSp = cleanCoreWS l := by
    have h1 : (cleanCoreWS l).map wsToSp = (cleanCoreWS l).map id :=
      List.map_congr_left (fun c hc => (cleanCoreWS_chars hc).2)
    rw [h1, List.map_id]
  have hstrip : pyStripL (cleanCoreWS l) = cleanCoreWS l :=
    pyStripL_eq_self (fun c hc => head?_cleanCoreWS_false hc)
      (fun c hc => getLast?_cleanCoreWS_false hc)
  have hnd : noDSp (cleanCoreWS l) := noDSp_collapseSpaces _
  show collapseSpaces ((pyStripL ((cleanCoreWS l).map pyLower)).map wsToSp)
    = cleanCoreWS l
  rw [hlow, hstrip, hws, collapseSpaces_eq_self hnd]

theorem cleanCoreTC_all_space {l : List Char} (h : ∀ c ∈ l, isPySpace c = true) :
    cleanCoreTC l = [] := by
  unfold cleanCoreTC
  apply pyStripL_eq_nil
  intro c hc
  obtain ⟨d, hd, rfl⟩ := List.mem_map.mp (mem_of_mem_collapseSpaces _ _ hc)
  have hd2 := h d hd
  unfold keepAlnum
  rw [pyLower_of_isPySpace hd2, not_isLowerAlnum_of_isPySpace hd2]
  simpa using isPySpace_space

theorem cleanCoreWS_all_space {l : List Char} (h : ∀ c ∈ l, isPySpace c = true) :
    cleanCoreWS l = [] := by
  unfold cleanCoreWS
  have hnil : pyStripL (l.map pyLower) = [] := by
    apply pyStripL_eq_nil
    intro c hc
    obtain ⟨d, hd, rfl⟩ := List.mem_map.mp hc
    rw [pyLower_of_isPySpace (h d hd)]
    exact h d hd
  rw [hnil]
  rfl

/-! ### Support lemmas: pipeline invariants -/

theorem WhereToBuyTC.tc_verify_accepted_status {target candidate : String}
    {vintage varietal : Option String} {threshold : ℚ} {r : Bool × String × ℚ × String}
    (hr : WhereToBuyTC.verify_product target candidate vintage varietal threshold = r)
    (htrue : r.1 = true) : r.2.1 = "Verified" ∨ r.2.1 = "Likely" := by
  simp only [WhereToBuyTC.verify_product] at hr
  split at hr
  · rw [← hr] at htrue
    simp at htrue
  · split at hr
    · rw [← hr] at htrue
      simp at htrue
    · split at hr
      · rw [← hr]
        exact Or.inr rfl
      · rw [← hr]
        exact Or.inl rfl

theorem WhereToBuyTC.tc_mem_screen_candidates {target : String}
    {vintage varietal : Option String} {threshold : ℚ} {src : String}
    {cands : List Candidate} {e : WhereToBuyTC.VerifiedResult}
    (h : e ∈ WhereToBuyTC.screen_candidates target vintage varietal threshold src cands) :
    (e.category = "Verified" ∨ e.category = "Likely") ∧ e.source = src := by
  unfold WhereToBuyTC.screen_candidates at h
  obtain ⟨c, _, hfc⟩ := List.mem_filterMap.mp h
  rcases hv : WhereToBuyTC.verify_product target c.product_name vintage varietal threshold
    with ⟨m, status, confidence, reason⟩
  rw [hv] at hfc
  cases m with
  | false => simp at hfc
  | true =>
    simp only [if_true] at hfc
    have hst := WhereToBuyTC.tc_verify_accepted_status hv rfl
    injection hfc with hfc
    rw [← hfc]
    exact ⟨hst, rfl⟩

theorem WhereToBuyTC.tc_mem_hybrid_search {product_name : String}
    {image_url producer varietal vintage : Option String} {fuzzy_threshold : ℚ}
    {shopping_results lens_results : List Candidate} {llm : WhereToBuyTC.LLMReply}
    {e : WhereToBuyTC.VerifiedResult}
    (h : e ∈ (WhereToBuyTC.hybrid_search product_name image_url producer varietal
      vintage fuzzy_threshold shopping_results lens_results llm).1) :
    e.category = "Verified" ∨ e.category = "Likely" ∨ e.category = "Suggested" := by
  unfold WhereToBuyTC.hybrid_search at h
  simp only at h
  have h2 := (List.take_sublist 3 _).mem h
  by_cases hllm : (WhereToBuyTC.screen_candidates
      (mkTarget product_name producer varietal vintage) vintage varietal
        fuzzy_threshold "Google Shopping" shopping_results ++
      (if truthy image_url = true then
        WhereToBuyTC.screen_candidates (mkTarget product_name producer varietal vintage)
          vintage varietal fuzzy_threshold "Google Lens" lens_results
      else [])).isEmpty = true
  · rw [if_pos hllm] at h2
    rcases List.mem_append.mp h2 with h3 | h3
    · rcases List.mem_append.mp h3 with h4 | h4
      · rcases (WhereToBuyTC.tc_mem_screen_candidates h4).1 with h5 | h5
        · exact Or.inl h5
        · exact Or.inr (Or.inl h5)
      · split at h4
        · rcases (WhereToBuyTC.tc_mem_screen_candidates h4).1 with h5 | h5
          · exact Or.inl h5
          · exact Or.inr (Or.inl h5)
        · cases h4
    · obtain ⟨p, _, hp⟩ := List.mem_map.mp h3
      rw [← hp]
      exact Or.inr (Or.inr rfl)
  · rw [if_neg hllm] at h2
    rcases List.mem_append.mp h2 with h3 | h3
    · rcases (WhereToBuyTC.tc_mem_screen_candidates h3).1 with h5 | h5
      · exact Or.inl h5
      · exact Or.inr (Or.inl h5)
    · split at h3
      · rcases (WhereToBuyTC.tc_mem_screen_candidates h3).1 with h5 | h5
        · exact Or.inl h5
        · exact Or.inr (Or.inl h5)
      · cases h3

theorem WhereToBuyTest.test_verify_accepted_status {target candidate : String}
    {store brand : Option String} {threshold high : ℚ} {sites : Option (List String)}
    {r : Bool × String × String}
    (hr : WhereToBuyTest.verify_product target candidate store brand threshold high sites = r)
    (htrue : r.1 = true) : r.2.1 = "Verified" ∨ r.2.1 = "Likely" := by
  simp only [WhereToBuyTest.verify_product] at hr
  split at hr
  · rw [← hr] at htrue
    simp at htrue
  · split at hr
    · split at hr
      · rw [← hr]
        exact Or.inl rfl
      · split at hr
        · rw [← hr]
          exact Or.inr rfl
        · split at hr
          · rw [← hr]
            exact Or.inr rfl
          · rw [← hr] at htrue
            simp at htrue
    · split at hr
      · rw [← hr]
        exact Or.inr rfl
      · split at hr
        · rw [← hr]
          exact Or.inr rfl
        · rw [← hr] at htrue
          simp at htrue

theorem WhereToBuyTest.test_mem_screen_candidates {target : String}
    {producer : Option String} {threshold high : ℚ} {src : String}
    {cands : List Candidate} {e : WhereToBuyTest.VerifiedResult}
    (h : e ∈ WhereToBuyTest.screen_candidates target producer threshold high src cands) :
    (e.category = "Verified" ∨ e.category = "Likely") ∧ e.source = src := by
  unfold WhereToBuyTest.screen_candidates at h
  obtain ⟨c, _, hfc⟩ := List.mem_filterMap.mp h
  rcases hv : WhereToBuyTest.verify_product target c.product_name c.store_name producer
    threshold high none with ⟨m, category, reason⟩
  rw [hv] at hfc
  cases m with
  | false => simp at hfc
  | true =>
    simp only [if_true] at hfc
    have hst := WhereToBuyTest.test_verify_accepted_status hv rfl
    injection hfc with hfc
    rw [← hfc]
    exact ⟨hst, rfl⟩

theorem WhereToBuyTest.mem_stage_results {target : String}
    {producer : Option String} {threshold high : ℚ}
    {shopping_results lens_results : List Candidate} {b : Bool}
    {e : WhereToBuyTest.VerifiedResult}
    (h : e ∈ WhereToBuyTest.screen_candidates target producer threshold high
        "Google Shopping" shopping_results ++
      (if b = true then WhereToBuyTest.screen_candidates target producer threshold high
        "Google Lens" lens_results else [])) :
    e.category = "Verified" ∨ e.category = "Likely" := by
  rcases List.mem_append.mp h with h2 | h2
  · exact (WhereToBuyTest.test_mem_screen_candidates h2).1
  · split at h2
    · exact (WhereToBuyTest.test_mem_screen_candidates h2).1
    · cases h2

theorem mem_foldl_dedup3 {α : Type} [DecidableEq α] :
    ∀ (l acc : List α) (e : α),
      e ∈ l.foldl (fun acc r =>
        if ¬ (r ∈ acc) ∧ acc.length < 3 then acc ++ [r] else acc) acc →
      e ∈ acc ∨ e ∈ l
  | [], _, _, h => Or.inl h
  | a :: l, acc, e, h => by
    simp only [List.foldl_cons] at h
    rcases mem_foldl_dedup3 l _ e h with h2 | h2
    · by_cases hc : ¬ (a ∈ acc) ∧ acc.length < 3
      · rw [if_pos hc] at h2
        rcases List.mem_append.mp h2 with h3 | h3
        · exact Or.inl h3
        · simp at h3
          exact Or.inr (by simp [h3])
      · rw [if_neg hc] at h2
        exact Or.inl h2
    · exact Or.inr (List.mem_cons_of_mem a h2)

theorem WhereToBuyTest.mem_assembly {v : List WhereToBuyTest.VerifiedResult}
    {e : WhereToBuyTest.VerifiedResult}
    (h : e ∈ (List.foldl (fun acc r =>
        if ¬ (r ∈ acc) ∧ acc.length < 3 then acc ++ [r] else acc)
      (match List.find? (fun r => r.category = "Likely") v with
        | some r => [r]
        | none => []) v).take 3) :
    e ∈ v := by
  have h2 := (List.take_sublist 3 _).mem h
  rcases mem_foldl_dedup3 _ _ _ h2 with h3 | h3
  · rcases hf : List.find? (fun r => decide (r.category = "Likely")) v with _ | r
    · rw [hf] at h3
      cases h3
    · rw [hf] at h3
      simp at h3
      rw [h3]
      exact List.mem_of_find?_eq_some hf
  · exact h3

theorem WhereToBuyTest.test_mem_hybrid_search {product_name : String}
    {image_url producer varietal vintage : Option String}
    {fuzzy_threshold high_name_threshold : ℚ}
    {shopping_results lens_results : List Candidate}
    {e : WhereToBuyTest.VerifiedResult}
    (h : e ∈ (WhereToBuyTest.hybrid_search product_name image_url producer varietal
      vintage fuzzy_threshold high_name_threshold shopping_results lens_results).1) :
    e.category = "Verified" ∨ e.category = "Likely" := by
  unfold WhereToBuyTest.hybrid_search at h
  simp only at h
  exact WhereToBuyTest.mem_stage_results (WhereToBuyTest.mem_assembly h)

theorem WhereToBuyfinal.shopping_short_circuit {product_name : String}
    {image_url producer varietal vintage : Option String} {fuzzy_threshold : ℚ}
    {shopping_results lens_results : List Candidate}
    {fb : WhereToBuyfinal.FallbackOutcome}
    (h : WhereToBuyfinal.screen_candidates (mkTarget product_name producer varietal vintage)
      producer fuzzy_threshold "Google Shopping" shopping_results ≠ []) :
    WhereToBuyfinal.hybrid_search_and_verify product_name image_url producer varietal
      vintage fuzzy_threshold shopping_results lens_results fb =
      (some (WhereToBuyfinal.screen_candidates (mkTarget product_name producer varietal vintage)
        producer fuzzy_threshold "Google Shopping" shopping_results),
       ⟨true, false, false⟩) := by
  have h2 : (WhereToBuyfinal.screen_candidates (mkTarget product_name producer varietal vintage)
      producer fuzzy_threshold "Google Shopping" shopping_results).isEmpty = false :=
    List.isEmpty_eq_false.mpr h
  unfold WhereToBuyfinal.hybrid_search_and_verify
  simp [h2]

theorem WhereToBuyTC.no_fallback_when_verified {product_name : String}
    {image_url producer varietal vintage : Option String} {fuzzy_threshold : ℚ}
    {shopping_results lens_results : List Candidate} {llm : WhereToBuyTC.LLMReply}
    (h : WhereToBuyTC.screen_candidates (mkTarget product_name producer varietal vintage)
      vintage varietal fuzzy_threshold "Google Shopping" shopping_results ≠ []) :
    (WhereToBuyTC.hybrid_search product_name image_url producer varietal vintage
      fuzzy_threshold shopping_results lens_results llm).2.ranLLM = false := by
  unfold WhereToBuyTC.hybrid_search
  simp [List.isEmpty_eq_false, List.append_eq_nil, h]

theorem WhereToBuyfinal.fallback_guarantee {product_name : String}
    {image_url producer varietal vintage : Option String} {fuzzy_threshold : ℚ}
    {shopping_results lens_results : List Candidate} {l : List LLMPlace}
    (hs : WhereToBuyfinal.screen_candidates (mkTarget product_name producer varietal vintage)
      producer fuzzy_threshold "Google Shopping" shopping_results = [])
    (hl : WhereToBuyfinal.screen_candidates (mkTarget product_name producer varietal vintage)
      producer fuzzy_threshold "Google Lens" lens_results = []) :
    ∃ r, (WhereToBuyfinal.hybrid_search_and_verify product_name image_url producer
        varietal vintage fuzzy_threshold shopping_results lens_results
        (WhereToBuyfinal.FallbackOutcome.reply l)).1 = some r ∧ r ≠ [] := by
  unfold WhereToBuyfinal.hybrid_search_and_verify WhereToBuyfinal.llm_fallback_search
  by_cases hle : l = []
  · subst hle
    simp [hs, hl, WhereToBuyfinal.format_fallback]
  · have hne : l.isEmpty = false := List.isEmpty_eq_false.mpr hle
    simp only [hs, hl, hne, List.isEmpty_nil, ite_self]
    simp only [Bool.and_false, Bool.false_eq_true, if_false, Bool.not_true]
    refine ⟨WhereToBuyfinal.format_fallback product_name l, ?_, ?_⟩
    · simp
    · unfold WhereToBuyfinal.format_fallback
      simp [hle]

theorem mem_insertDesc {α : Type} {x y : α × ℚ} : ∀ {l : List (α × ℚ)},
    x ∈ insertDesc y l ↔ x = y ∨ x ∈ l
  | [] => by simp [insertDesc]
  | z :: l => by
    unfold insertDesc
    split
    · simp
    · rw [List.mem_cons, List.mem_cons, mem_insertDesc]
      tauto

theorem mem_sortDesc {α : Type} {x : α × ℚ} : ∀ {l : List (α × ℚ)},
    x ∈ sortDesc l ↔ x ∈ l
  | [] => Iff.rfl
  | y :: l => by
    unfold sortDesc
    rw [mem_insertDesc, List.mem_cons, mem_sortDesc]

theorem take3_length_le {α : Type} (l : List α) : (l.take 3).length ≤ 3 := by
  rw [List.length_take]
  omega

theorem max3Q_le {x y z c : ℚ} (hx : x ≤ c) (hy : y ≤ c) (hz : z ≤ c) :
    max3Q x y z ≤ c :=
  maxQ_le hx (maxQ_le hy hz)

theorem le_max3Q_left (x y z : ℚ) : x ≤ max3Q x y z :=
  le_maxQ_left x (maxQ y z)

theorem max3Q_nonneg {x y z : ℚ} (hx : 0 ≤ x) : 0 ≤ max3Q x y z :=
  le_trans hx (le_max3Q_left x y z)

theorem WhereToBuyTC.tc_clean_some (s : String) :
    WhereToBuyTC.clean (some s) =
      if s = "" then "" else String.mk (cleanCoreTC s.data) := rfl

theorem WhereToBuyTest.ws_clean_some (s : String) :
    WhereToBuyTest.clean (some s) =
      if s = "" then "" else String.mk (cleanCoreWS s.data) := rfl

theorem WhereToBuyTC.tc_clean_idem (x : Option String) :
    WhereToBuyTC.clean (some (WhereToBuyTC.clean x)) = WhereToBuyTC.clean x := by
  match x with
  | none => rfl
  | some s =>
    by_cases hs : s = ""
    · subst hs
      rfl
    · rw [WhereToBuyTC.tc_clean_some s, if_neg hs]
      by_cases h2 : String.mk (cleanCoreTC s.data) = ""
      · rw [WhereToBuyTC.tc_clean_some, if_pos h2]
        exact h2.symm
      · rw [WhereToBuyTC.tc_clean_some, if_neg h2]
        show String.mk (cleanCoreTC (cleanCoreTC s.data)) = _
        rw [cleanCoreTC_idem]

theorem WhereToBuyTest.ws_clean_idem (x : Option String) :
    WhereToBuyTest.clean (some (WhereToBuyTest.clean x)) = WhereToBuyTest.clean x := by
  match x with
  | none => rfl
  | some s =>
    by_cases hs : s = ""
    · subst hs
      rfl
    · rw [WhereToBuyTest.ws_clean_some s, if_neg hs]
      by_cases h2 : String.mk (cleanCoreWS s.data) = ""
      · rw [WhereToBuyTest.ws_clean_some, if_pos h2]
        exact h2.symm
      · rw [WhereToBuyTest.ws_clean_some, if_neg h2]
        show String.mk (cleanCoreWS (cleanCoreWS s.data)) = _
        rw [cleanCoreWS_idem]

theorem WhereToBuyTC.tc_clean_all_space {s : String}
    (h : ∀ c ∈ s.data, isPySpace c = true) : WhereToBuyTC.clean (some s) = "" := by
  by_cases hs : s = ""
  · subst hs
    rfl
  · rw [WhereToBuyTC.tc_clean_some, if_neg hs, cleanCoreTC_all_space h]

theorem WhereToBuyTest.ws_clean_all_space {s : String}
    (h : ∀ c ∈ s.data, isPySpace c = true) : WhereToBuyTest.clean (some s) = "" := by
  by_cases hs : s = ""
  · subst hs
    rfl
  · rw [WhereToBuyTest.ws_clean_some, if_neg hs, cleanCoreWS_all_space h]

/-! ### Claim theorems -/

/-- C1 counterexample: in WhereToBuyTC.hybrid_search, a pipeline invocation
whose text-search stage produces a Verified match still executes the
image-search stage whenever a reference image is available (image_url is
truthy), contradicting the claim that the image stage is never executed in
that case.  Concretely: product "x", one shopping candidate titled "x"
(verified, the only output entry), an image url present — the lens backend
is invoked (ranLens = true). -/
theorem C1_counterexample :
    (WhereToBuyTC.hybrid_search "x" (some "u") none none none 85
      [{ product_name := "x", store_name := some "s", price := none,
         rating := none, link := some "l", thumbnail := none }] []
      (WhereToBuyTC.LLMReply.ok [])).2.ranLens = true ∧
    ((WhereToBuyTC.hybrid_search "x" (some "u") none none none 85
      [{ product_name := "x", store_name := some "s", price := none,
         rating := none, link := some "l", thumbnail := none }] []
      (WhereToBuyTC.LLMReply.ok [])).1.map (fun e => e.category)) = ["Verified"] := by
  decide

/-- C1 amended: the full short-circuit holds only in the WhereToBuyfinal
variant: when the text stage verifies at least one candidate,
hybrid_search_and_verify returns those results and calls neither the image
nor the fallback backend.  In the WhereToBuyTC variant only the generative
fallback is short-circuited by text-stage matches; the image stage runs
whenever a reference image is available. -/
theorem C1_amended_cascade_short_circuit
    (product_name : String) (image_url producer varietal vintage : Option String)
    (fuzzy_threshold : ℚ) (shopping_results lens_results : List Candidate)
    (fb : WhereToBuyfinal.FallbackOutcome) (llm : WhereToBuyTC.LLMReply)
    (hfinal : WhereToBuyfinal.screen_candidates
      (mkTarget product_name producer varietal vintage) producer fuzzy_threshold
      "Google Shopping" shopping_results ≠ [])
    (htc : WhereToBuyTC.screen_candidates
      (mkTarget product_name producer varietal vintage) vintage varietal
      fuzzy_threshold "Google Shopping" shopping_results ≠ []) :
    ((WhereToBuyfinal.hybrid_search_and_verify product_name image_url producer
        varietal vintage fuzzy_threshold shopping_results lens_results fb).2.ranLens
        = false ∧
      (WhereToBuyfinal.hybrid_search_and_verify product_name image_url producer
        varietal vintage fuzzy_threshold shopping_results lens_results fb).2.ranLLM
        = false) ∧
    (WhereToBuyTC.hybrid_search product_name image_url producer varietal vintage
      fuzzy_threshold shopping_results lens_results llm).2.ranLLM = false := by
  refine ⟨⟨?_, ?_⟩, WhereToBuyTC.no_fallback_when_verified htc⟩
  · rw [WhereToBuyfinal.shopping_short_circuit hfinal]
  · rw [WhereToBuyfinal.shopping_short_circuit hfinal]

/-- Witness for C1 amended at a concrete input: product "x", one shopping
candidate titled "x" passing verification in both variants. -/
theorem C1_amended_witness :
    (WhereToBuyfinal.screen_candidates (mkTarget "x" none none none) none 85
      "Google Shopping"
      [{ product_name := "x", store_name := some "s", price := none,
         rating := none, link := some "l", thumbnail := none }] ≠ []) ∧
    (WhereToBuyTC.screen_candidates (mkTarget "x" none none none) none none 85
      "Google Shopping"
      [{ product_name := "x", store_name := some "s", price := none,
         rating := none, link := some "l", thumbnail := none }] ≠ []) ∧
    (((WhereToBuyfinal.hybrid_search_and_verify "x" (some "u") none none none 85
        [{ product_name := "x", store_name := some "s", price := none,
           rating := none, link := some "l", thumbnail := none }] []
        (WhereToBuyfinal.FallbackOutcome.reply [])).2.ranLens = false ∧
      (WhereToBuyfinal.hybrid_search_and_verify "x" (some "u") none none none 85
        [{ product_name := "x", store_name := some "s", price := none,
           rating := none, link := some "l", thumbnail := none }] []
        (WhereToBuyfinal.FallbackOutcome.reply [])).2.ranLLM = false) ∧
     (WhereToBuyTC.hybrid_search "x" (some "u") none none none 85
        [{ product_name := "x", store_name := some "s", price := none,
           rating := none, link := some "l", thumbnail := none }] []
        (WhereToBuyTC.LLMReply.ok [])).2.ranLLM = false) :=
  ⟨by decide, by decide,
    C1_amended_cascade_short_circuit "x" (some "u") none none none 85
      [{ product_name := "x", store_name := some "s", price := none,
         rating := none, link := some "l", thumbnail := none }] []
      (WhereToBuyfinal.FallbackOutcome.reply []) (WhereToBuyTC.LLMReply.ok [])
      (by decide) (by decide)⟩

/-- C2 counterexample: in WhereToBuyTC.hybrid_search, when both search
stages yield zero candidates and the generative fallback backend fails
(raises) or returns an unparseable response, query_llm_for_places returns []
and the pipeline returns an empty result set — no synthesized
generic-retailer suggestion is substituted, contradicting the non-empty
result guarantee. -/
theorem C2_counterexample :
    (WhereToBuyTC.hybrid_search "x" none none none none 85 [] []
      WhereToBuyTC.LLMReply.apiError).1 = [] ∧
    (WhereToBuyTC.hybrid_search "x" none none none none 85 [] []
      WhereToBuyTC.LLMReply.unparseable).1 = [] := by
  decide

/-- C2 amended: the substitution of a single synthesized generic-retailer
suggestion exists only in the WhereToBuyfinal variant, and only when the
fallback call returns text whose extraction yields a list (possibly empty);
under that condition, whenever both search stages screen to zero accepted
candidates the pipeline returns a non-empty (fallback-sourced) result set.
(A raising fallback backend propagates the exception in that variant, and
the WhereToBuyTC variant returns an empty set on fallback failure — see the
counterexample.) -/
theorem C2_amended_fallback_nonempty
    (product_name : String) (image_url producer varietal vintage : Option String)
    (fuzzy_threshold : ℚ) (shopping_results lens_results : List Candidate)
    (l : List LLMPlace)
    (hs : WhereToBuyfinal.screen_candidates
      (mkTarget product_name producer varietal vintage) producer fuzzy_threshold
      "Google Shopping" shopping_results = [])
    (hl : WhereToBuyfinal.screen_candidates
      (mkTarget product_name producer varietal vintage) producer fuzzy_threshold
      "Google Lens" lens_results = []) :
    ∃ r, (WhereToBuyfinal.hybrid_search_and_verify product_name image_url producer
        varietal vintage fuzzy_threshold shopping_results lens_results
        (WhereToBuyfinal.FallbackOutcome.reply l)).1 = some r ∧ r ≠ [] :=
  WhereToBuyfinal.fallback_guarantee hs hl

/-- Witness for C2 amended: zero candidates everywhere and an empty
extraction list; the pipeline still returns a (generic-suggestion) result. -/
theorem C2_amended_witness :
    (WhereToBuyfinal.screen_candidates (mkTarget "x" none none none) none 85
      "Google Shopping" [] = []) ∧
    (WhereToBuyfinal.screen_candidates (mkTarget "x" none none none) none 85
      "Google Lens" [] = []) ∧
    ∃ r, (WhereToBuyfinal.hybrid_search_and_verify "x" none none none none 85 [] []
      (WhereToBuyfinal.FallbackOutcome.reply [])).1 = some r ∧ r ≠ [] :=
  ⟨rfl, rfl,
    C2_amended_fallback_nonempty "x" none none none none 85 [] [] [] rfl rfl⟩

/-- C4: the vintage gate of WhereToBuyTC.verify_product: if the target has a
(truthy) vintage and the raw candidate name does not contain it as a literal
substring, the result is Rejected with confidence 0, for every target name
and threshold (so independent of any similarity computation). -/
theorem C4_vintage_gate (target candidate v : String) (varietal : Option String)
    (threshold : ℚ) (hv : v ≠ "") (hnotin : pyIn v candidate = false) :
    WhereToBuyTC.verify_product target candidate (some v) varietal threshold =
      (false, "Rejected", 0, "Vintage " ++ v ++ " not found in candidate") := by
  have h1 : truthy (some v) = true := by simp [truthy, hv]
  simp [WhereToBuyTC.verify_product, h1, orEmpty, hnotin]

/-- Witness for C4: vintage "2015" missing from "old oak reserve" is
Rejected at threshold 85 regardless of the target. -/
theorem C4_witness :
    ("2015" : String) ≠ "" ∧ pyIn "2015" "old oak reserve" = false ∧
    WhereToBuyTC.verify_product "old oak reserve 2015" "old oak reserve"
      (some "2015") none 85 =
      (false, "Rejected", 0, "Vintage 2015 not found in candidate") :=
  ⟨by decide, by decide,
    C4_vintage_gate "old oak reserve 2015" "old oak reserve" "2015" none 85
      (by decide) (by decide)⟩

/-- C5 counterexample: WhereToBuyTC.hybrid_search performs no deduplication:
two identical shopping candidates (same store_name and link) that pass
verification both appear in the returned result sequence, contradicting the
claimed (store_name, link) deduplication. -/
theorem C5_counterexample :
    ((WhereToBuyTC.hybrid_search "x" none none none none 85
      [{ product_name := "x", store_name := some "s", price := none,
         rating := none, link := some "l", thumbnail := none },
       { product_name := "x", store_name := some "s", price := none,
         rating := none, link := some "l", thumbnail := none }] []
      (WhereToBuyTC.LLMReply.ok [])).1.map (fun e => (e.store_name, e.link))) =
      [(some "s", some "l"), (some "s", some "l")] := by
  decide

/-- C5 amended: the output invariants that do hold: both the WhereToBuyTC
and the WhereToBuyTest pipelines return at most 3 results, and no
Rejected-tier candidate ever appears in the output (rejected candidates are
dropped at verification time; fallback entries are Suggested).  No
(store_name, link) deduplication is performed — see the counterexample. -/
theorem C5_amended_output_invariant
    (product_name : String) (image_url producer varietal vintage : Option String)
    (fuzzy_threshold high_name_threshold : ℚ)
    (shopping_results lens_results : List Candidate) (llm : WhereToBuyTC.LLMReply) :
    ((WhereToBuyTC.hybrid_search product_name image_url producer varietal vintage
        fuzzy_threshold shopping_results lens_results llm).1.length ≤ 3 ∧
      (∀ e ∈ (WhereToBuyTC.hybrid_search product_name image_url producer varietal
        vintage fuzzy_threshold shopping_results lens_results llm).1,
        e.category ≠ "Rejected")) ∧
    ((WhereToBuyTest.hybrid_search product_name image_url producer varietal vintage
        fuzzy_threshold high_name_threshold shopping_results lens_results).1.length
        ≤ 3 ∧
      (∀ e ∈ (WhereToBuyTest.hybrid_search product_name image_url producer varietal
        vintage fuzzy_threshold high_name_threshold shopping_results lens_results).1,
        e.category ≠ "Rejected")) := by
  refine ⟨⟨?_, ?_⟩, ⟨?_, ?_⟩⟩
  · exact take3_length_le _
  · intro e he
    rcases WhereToBuyTC.tc_mem_hybrid_search he with h | h | h <;> rw [h] <;> decide
  · exact take3_length_le _
  · intro e he
    rcases WhereToBuyTest.test_mem_hybrid_search he with h | h <;> rw [h] <;> decide

/-- Witness for C5 amended: a single verified candidate; the output entry is
not Rejected and the length bound holds. -/
theorem C5_amended_witness :
    ({ product_name := "x", store_name := some "s", price := none, rating := none,
       link := some "l", thumbnail := none, verification_reason := "Name matched",
       source := "Google Shopping", category := "Verified",
       confidence := some 100, reason := none } : WhereToBuyTC.VerifiedResult) ∈
      (WhereToBuyTC.hybrid_search "x" none none none none 85
        [{ product_name := "x", store_name := some "s", price := none,
           rating := none, link := some "l", thumbnail := none }] []
        (WhereToBuyTC.LLMReply.ok [])).1 ∧
    ({ product_name := "x", store_name := some "s", price := none, rating := none,
       link := some "l", thumbnail := none, verification_reason := "Name matched",
       source := "Google Shopping", category := "Verified",
       confidence := some 100, reason := none } : WhereToBuyTC.VerifiedResult).category
      ≠ "Rejected" :=
  ⟨by decide,
    (C5_amended_output_invariant "x" none none none none 85 90
      [{ product_name := "x", store_name := some "s", price := none,
         rating := none, link := some "l", thumbnail := none }] []
      (WhereToBuyTC.LLMReply.ok [])).1.2
      { product_name := "x", store_name := some "s", price := none, rating := none,
        link := some "l", thumbnail := none, verification_reason := "Name matched",
        source := "Google Shopping", category := "Verified",
        confidence := some 100, reason := none }
      (by decide)⟩

/-- C8 counterexample: the lexical score of WhereToBuyTC.verify_product is
rapidfuzz token_sort_ratio alone, not the maximum of three metrics: on
target "ab" and candidate "a" the token-sort ratio is 200/3 while the
max-of-three (direct, partial, token-sort) is 100, so at threshold 80 the TC
scorer rejects a pair whose max-of-three passes. -/
theorem C8_counterexample :
    tokenSortQR (WhereToBuyTC.clean (some "ab")) (WhereToBuyTC.clean (some "a")) ≠
      max3Q
        (fuzzRatioQ (WhereToBuyTC.clean (some "ab")) (WhereToBuyTC.clean (some "a")))
        (partRatioQ (WhereToBuyTC.clean (some "ab")) (WhereToBuyTC.clean (some "a")))
        (tokenSortQR (WhereToBuyTC.clean (some "ab")) (WhereToBuyTC.clean (some "a"))) ∧
    (WhereToBuyTC.verify_product "ab" "a" none none 80).2.1 = "Rejected" ∧
    80 ≤ max3Q
      (fuzzRatioQ (WhereToBuyTC.clean (some "ab")) (WhereToBuyTC.clean (some "a")))
      (partRatioQ (WhereToBuyTC.clean (some "ab")) (WhereToBuyTC.clean (some "a")))
      (tokenSortQR (WhereToBuyTC.clean (some "ab")) (WhereToBuyTC.clean (some "a"))) := by
  decide

/-- C8 amended: the max-of-three lexical scorer is the one of
WhereToBuyTest.verify_product / WhereToBuyfinal.verify_with_brand_priority
(max of direct ratio, partial ratio, token-sort ratio); the WhereToBuyTC
variant uses the token-sort ratio alone.  Both scores always lie in 0..100,
and identical (already-normalized) strings score exactly 100. -/
theorem C8_amended_lexical_scorer (a b : String) :
    (0 ≤ max3Q (fuzzRatioQ a b) (partRatioQ a b) (tokenSortQF a b) ∧
      max3Q (fuzzRatioQ a b) (partRatioQ a b) (tokenSortQF a b) ≤ 100) ∧
    (0 ≤ tokenSortQR a b ∧ tokenSortQR a b ≤ 100) ∧
    max3Q (fuzzRatioQ a a) (partRatioQ a a) (tokenSortQF a a) = 100 ∧
    tokenSortQR a a = 100 := by
  refine ⟨⟨?_, ?_⟩, ⟨tokenSortQR_nonneg a b, tokenSortQR_le_100 a b⟩, ?_, tokenSortQR_self a⟩
  · exact max3Q_nonneg (fuzzRatioQ_nonneg a b)
  · exact max3Q_le (fuzzRatioQ_le_100 a b) (partRatioQ_le_100 a b) (tokenSortQF_le_100 a b)
  · have h1 : (100 : ℚ) ≤ max3Q (fuzzRatioQ a a) (partRatioQ a a) (tokenSortQF a a) := by
      rw [fuzzRatioQ_self]
      exact le_max3Q_left 100 (partRatioQ a a) (tokenSortQF a a)
    have h2 := max3Q_le (fuzzRatioQ_le_100 a a) (partRatioQ_le_100 a a)
      (tokenSortQF_le_100 a a)
    linarith

/-- C9: normalizer algebra.  Both clean variants (the strict alphanumeric
one of WhereToBuyTC.py and the whitespace-collapsing one shared by
WhereToBuyTest.py / WhereToBuyfinal.py) are idempotent, map absent (None)
and empty input to "", and map all-whitespace input to "" — with no failure
possible (they are total functions). -/
theorem C9_normalizer_algebra :
    (∀ x : Option String,
      WhereToBuyTC.clean (some (WhereToBuyTC.clean x)) = WhereToBuyTC.clean x) ∧
    (∀ x : Option String,
      WhereToBuyTest.clean (some (WhereToBuyTest.clean x)) = WhereToBuyTest.clean x) ∧
    WhereToBuyTC.clean none = "" ∧ WhereToBuyTest.clean none = "" ∧
    WhereToBuyTC.clean (some "") = "" ∧ WhereToBuyTest.clean (some "") = "" ∧
    (∀ s : String, (∀ c ∈ s.data, isPySpace c = true) →
      WhereToBuyTC.clean (some s) = "" ∧ WhereToBuyTest.clean (some s) = "") :=
  ⟨WhereToBuyTC.tc_clean_idem, WhereToBuyTest.ws_clean_idem, rfl, rfl, rfl, rfl,
    fun _ h => ⟨WhereToBuyTC.tc_clean_all_space h, WhereToBuyTest.ws_clean_all_space h⟩⟩

/-- Witness for C9 at the all-whitespace input " \t " (space, tab, space). -/
theorem C9_witness :
    (∀ c ∈ (" \t " : String).data, isPySpace c = true) ∧
    WhereToBuyTC.clean (some " \t ") = "" ∧ WhereToBuyTest.clean (some " \t ") = "" :=
  ⟨by decide, (C9_normalizer_algebra.2.2.2.2.2.2 " \t " (by decide)).1,
    (C9_normalizer_algebra.2.2.2.2.2.2 " \t " (by decide)).2⟩

/-- C3: brand gate of WhereToBuyTest.verify_product.  For a candidate that
passes the name-similarity threshold with a (truthy) producer present:
a strong brand match (fuzz.partial_ratio of cleaned brand against cleaned
candidate at least 90) yields Verified; otherwise the candidate is Likely
when its cleaned store contains an e-commerce allowlist entry OR the name
score reaches the stricter high threshold, and Rejected otherwise. -/
theorem C3_brand_gate (target candidate : String) (store : Option String)
    (b : String) (threshold high_name_threshold : ℚ)
    (e_commerce_sites : Option (List String)) (hb : b ≠ "")
    (hpass : ¬ (max3Q
      (fuzzRatioQ (WhereToBuyTest.clean (some target)) (WhereToBuyTest.clean (some candidate)))
      (partRatioQ (WhereToBuyTest.clean (some target)) (WhereToBuyTest.clean (some candidate)))
      (tokenSortQF (WhereToBuyTest.clean (some target)) (WhereToBuyTest.clean (some candidate)))
      < threshold)) :
    ((90 ≤ partRatioQ (WhereToBuyTest.clean (some b)) (WhereToBuyTest.clean (some candidate)) →
      WhereToBuyTest.verify_product target candidate store (some b) threshold
        high_name_threshold e_commerce_sites =
        (true, "Verified", "Name score ok, Brand matched")) ∧
    (partRatioQ (WhereToBuyTest.clean (some b)) (WhereToBuyTest.clean (some candidate)) < 90 →
      ((e_commerce_sites.getD WhereToBuyTest.default_e_commerce).any
          (fun ecom => pyIn ecom (WhereToBuyTest.clean store)) = true ∨
        high_name_threshold ≤ max3Q
          (fuzzRatioQ (WhereToBuyTest.clean (some target)) (WhereToBuyTest.clean (some candidate)))
          (partRatioQ (WhereToBuyTest.clean (some target)) (WhereToBuyTest.clean (some candidate)))
          (tokenSortQF (WhereToBuyTest.clean (some target)) (WhereToBuyTest.clean (some candidate)))) →
      (WhereToBuyTest.verify_product target candidate store (some b) threshold
        high_name_threshold e_commerce_sites).1 = true ∧
      (WhereToBuyTest.verify_product target candidate store (some b) threshold
        high_name_threshold e_commerce_sites).2.1 = "Likely") ∧
    (partRatioQ (WhereToBuyTest.clean (some b)) (WhereToBuyTest.clean (some candidate)) < 90 →
      (e_commerce_sites.getD WhereToBuyTest.default_e_commerce).any
        (fun ecom => pyIn ecom (WhereToBuyTest.clean store)) = false →
      max3Q
        (fuzzRatioQ (WhereToBuyTest.clean (some target)) (WhereToBuyTest.clean (some candidate)))
        (partRatioQ (WhereToBuyTest.clean (some target)) (WhereToBuyTest.clean (some candidate)))
        (tokenSortQF (WhereToBuyTest.clean (some target)) (WhereToBuyTest.clean (some candidate)))
        < high_name_threshold →
      WhereToBuyTest.verify_product target candidate store (some b) threshold
        high_name_threshold e_commerce_sites =
        (false, "Rejected", "Brand mismatch, Non-e-commerce, weak name"))) := by
  have hbr : truthy (some b) = true := by simp [truthy, hb]
  refine ⟨?_, ?_, ?_⟩
  · intro h90
    simp only [WhereToBuyTest.verify_product, if_neg hpass, hbr]
    rw [if_pos trivial, if_pos h90]
  · intro h90 hor
    simp only [WhereToBuyTest.verify_product, if_neg hpass, hbr]
    rw [if_pos trivial, if_neg (not_le.mpr h90)]
    rcases hor with he | hh
    · rw [if_pos he]
      exact ⟨rfl, rfl⟩
    · by_cases he : (e_commerce_sites.getD WhereToBuyTest.default_e_commerce).any
          (fun ecom => pyIn ecom (WhereToBuyTest.clean store)) = true
      · rw [if_pos he]
        exact ⟨rfl, rfl⟩
      · rw [if_neg he, if_pos hh]
        exact ⟨rfl, rfl⟩
  · intro h90 hecom hhigh
    simp only [WhereToBuyTest.verify_product, if_neg hpass, hbr]
    rw [if_pos trivial, if_neg (not_le.mpr h90), if_neg (by simp [hecom]),
      if_neg (not_le.mpr hhigh)]

/-- Witness for C3: target and candidate "acme oak", store "amazon uk",
producer "acme": the brand partial ratio is 100 ≥ 90, so Verified. -/
theorem C3_witness :
    ("acme" : String) ≠ "" ∧
    ¬ (max3Q
      (fuzzRatioQ (WhereToBuyTest.clean (some "acme oak")) (WhereToBuyTest.clean (some "acme oak")))
      (partRatioQ (WhereToBuyTest.clean (some "acme oak")) (WhereToBuyTest.clean (some "acme oak")))
      (tokenSortQF (WhereToBuyTest.clean (some "acme oak")) (WhereToBuyTest.clean (some "acme oak")))
      < 80) ∧
    90 ≤ partRatioQ (WhereToBuyTest.clean (some "acme"))
      (WhereToBuyTest.clean (some "acme oak")) ∧
    WhereToBuyTest.verify_product "acme oak" "acme oak" (some "amazon uk")
      (some "acme") 80 90 none = (true, "Verified", "Name score ok, Brand matched") :=
  ⟨by decide, by decide, by decide,
    (C3_brand_gate "acme oak" "acme oak" (some "amazon uk") "acme" 80 90 none
      (by decide) (by decide)).1 (by decide)⟩

/-- C6: negative-keyword exclusion.  Every entry of the output of
FuzzyFilterMatching.filter_with_fuzzy_matching has a lowered product name
free of the file's negative keywords, for every input list, target and
threshold; likewise for EmbeddingFilterMatching.filter_with_embeddings for
every assignment of cosine scores (so exclusion is independent of the
similarity score). -/
theorem C6_negative_keyword_exclusion :
    (∀ (results : List Candidate) (target_product : String) (threshold : ℚ)
      (e : Candidate × ℚ),
      e ∈ FuzzyFilterMatching.filter_with_fuzzy_matching results target_product threshold →
      FuzzyFilterMatching.negative_keywords.any
        (fun keyword => pyIn keyword (lowerStr e.1.product_name)) = false) ∧
    (∀ (results : List Candidate) (cosine_scores : List ℚ) (threshold : ℚ)
      (e : Candidate × ℚ),
      e ∈ EmbeddingFilterMatching.filter_with_embeddings results cosine_scores threshold →
      EmbeddingFilterMatching.negative_keywords.any
        (fun keyword => pyIn keyword (lowerStr e.1.product_name)) = false) := by
  constructor
  · intro results target_product threshold e he
    unfold FuzzyFilterMatching.filter_with_fuzzy_matching at he
    rw [mem_sortDesc] at he
    obtain ⟨item, _, hf⟩ := List.mem_filterMap.mp he
    by_cases hk : FuzzyFilterMatching.negative_keywords.any
        (fun keyword => pyIn keyword (lowerStr item.product_name)) = true
    · rw [if_pos hk] at hf
      cases hf
    · rw [if_neg hk] at hf
      by_cases hsc : threshold ≤ tokenSetQF (lowerStr target_product) (lowerStr item.product_name)
      · rw [if_pos hsc] at hf
        injection hf with hf
        rw [← hf]
        simpa using hk
      · rw [if_neg hsc] at hf
        cases hf
  · intro results cosine_scores threshold e he
    unfold EmbeddingFilterMatching.filter_with_embeddings at he
    rw [mem_sortDesc] at he
    obtain ⟨pr, _, hf⟩ := List.mem_filterMap.mp he
    by_cases hk : EmbeddingFilterMatching.negative_keywords.any
        (fun keyword => pyIn keyword (lowerStr pr.1.product_name)) = true
    · rw [if_pos hk] at hf
      cases hf
    · rw [if_neg hk] at hf
      by_cases hsc : threshold ≤ pr.2
      · rw [if_pos hsc] at hf
        injection hf with hf
        rw [← hf]
        simpa using hk
      · rw [if_neg hsc] at hf
        cases hf

/-- Witness for C6: a candidate named "good whisky" (keyword-free, exact
match) is in the fuzzy filter output, and the theorem instantiated at it
confirms its name is keyword-free; same for the embedding filter at cosine
score 9/10 against threshold 3/4. -/
theorem C6_witness :
    (({ product_name := "good whisky", store_name := some "s", price := none,
        rating := none, link := none, thumbnail := none }, (100 : ℚ)) ∈
      FuzzyFilterMatching.filter_with_fuzzy_matching
        [{ product_name := "good whisky", store_name := some "s", price := none,
           rating := none, link := none, thumbnail := none }] "good whisky" 80) ∧
    FuzzyFilterMatching.negative_keywords.any
      (fun keyword => pyIn keyword (lowerStr "good whisky")) = false ∧
    (({ product_name := "good whisky", store_name := some "s", price := none,
        rating := none, link := none, thumbnail := none }, mkRat 9 10) ∈
      EmbeddingFilterMatching.filter_with_embeddings
        [{ product_name := "good whisky", store_name := some "s", price := none,
           rating := none, link := none, thumbnail := none }] [mkRat 9 10] (mkRat 3 4)) ∧
    EmbeddingFilterMatching.negative_keywords.any
      (fun keyword => pyIn keyword (lowerStr "good whisky")) = false :=
  ⟨by decide,
    C6_negative_keyword_exclusion.1
      [{ product_name := "good whisky", store_name := some "s", price := none,
         rating := none, link := none, thumbnail := none }] "good whisky" 80
      ({ product_name := "good whisky", store_name := some "s", price := none,
         rating := none, link := none, thumbnail := none }, (100 : ℚ)) (by decide),
    by decide,
    C6_negative_keyword_exclusion.2
      [{ product_name := "good whisky", store_name := some "s", price := none,
         rating := none, link := none, thumbnail := none }] [mkRat 9 10] (mkRat 3 4)
      ({ product_name := "good whisky", store_name := some "s", price := none,
         rating := none, link := none, thumbnail := none }, mkRat 9 10) (by decide)⟩

/-- C7: the varietal soft gate of WhereToBuyTC.verify_product.  When the
vintage gate passes, the token-sort name score reaches the threshold, a
(truthy) varietal is present with a non-empty cleaned form, and that cleaned
varietal is not a substring of the cleaned candidate name, the candidate is
downgraded to Likely — not Rejected — with confidence int(name_score * 0.9)
(truncating multiplication by 9/10, modelled exactly over ℚ). -/
theorem C7_varietal_soft_gate (target candidate v : String)
    (vintage : Option String) (threshold : ℚ) (hv0 : v ≠ "")
    (hvin : truthy vintage = true → pyIn (orEmpty vintage) candidate = true)
    (hv : WhereToBuyTC.clean (some v) ≠ "")
    (hns : ¬ (tokenSortQR (WhereToBuyTC.clean (some target))
      (WhereToBuyTC.clean (some candidate)) < threshold))
    (hmiss : pyIn (WhereToBuyTC.clean (some v))
      (WhereToBuyTC.clean (some candidate)) = false) :
    WhereToBuyTC.verify_product target candidate vintage (some v) threshold =
      (true, "Likely",
        ((pyTrunc (mulFrac (tokenSortQR (WhereToBuyTC.clean (some target))
          (WhereToBuyTC.clean (some candidate))) 9 10) : ℤ) : ℚ),
        "Name matched, varietal missing") := by
  unfold WhereToBuyTC.verify_product
  rw [if_neg, if_neg hns, if_pos]
  · refine ⟨by simp [truthy, hv0], hv, by simp [hmiss]⟩
  · intro hcon
    rcases hcon with ⟨h1, h2⟩
    rw [hvin h1] at h2
    simp at h2

/-- Witness for C7: target and candidate "a b", varietal "z" (absent from
the candidate), no vintage, threshold 85: name score 100, downgraded to
Likely with confidence int(100 * 0.9) = 90. -/
theorem C7_witness :
    WhereToBuyTC.verify_product "a b" "a b" none (some "z") 85 =
      (true, "Likely", 90, "Name matched, varietal missing") := by
  have h := C7_varietal_soft_gate "a b" "a b" "z" none 85 (by decide) (by decide)
    (by decide) (by decide) (by decide)
  rw [h]
  decide

/-- C10: the API wrapper filter never fails on an absent (None)
product_name: the name is replaced by "", which passes the negative-keyword
check vacuously, and the candidate is retained exactly when the
token_set_ratio of the empty string against the lowered target reaches the
threshold. -/
theorem C10_missing_name_safe (results : List WhereToBuyfinalAPIWrapper.Item)
    (target_product : String) (threshold : ℚ)
    (item : WhereToBuyfinalAPIWrapper.Item)
    (hnone : item.product_name = none) (hmem : item ∈ results) :
    WhereToBuyfinalAPIWrapper.pname_or_empty item.product_name = "" ∧
    WhereToBuyfinalAPIWrapper.negative_keywords.any (fun k => pyIn k "") = false ∧
    ((item, tokenSetQF (lowerStr target_product) "") ∈
        WhereToBuyfinalAPIWrapper.filter_with_fuzzy_matching results target_product
          threshold ↔
      threshold ≤ tokenSetQF (lowerStr target_product) "") := by
  have hp : WhereToBuyfinalAPIWrapper.pname_or_empty item.product_name = "" := by
    rw [hnone]
    rfl
  have hkw : WhereToBuyfinalAPIWrapper.negative_keywords.any (fun k => pyIn k "")
      = false := by decide
  refine ⟨hp, hkw, ?_⟩
  unfold WhereToBuyfinalAPIWrapper.filter_with_fuzzy_matching
  rw [mem_sortDesc, List.mem_filterMap]
  constructor
  · rintro ⟨a, _, hf⟩
    by_cases hk : WhereToBuyfinalAPIWrapper.negative_keywords.any
        (fun k => pyIn k (WhereToBuyfinalAPIWrapper.pname_or_empty a.product_name))
        = true
    · rw [if_pos hk] at hf
      cases hf
    · rw [if_neg hk] at hf
      by_cases hsc : threshold ≤ tokenSetQF (lowerStr target_product)
          (WhereToBuyfinalAPIWrapper.pname_or_empty a.product_name)
      · rw [if_pos hsc] at hf
        injection hf with hf
        have ha2 : a = item := congrArg Prod.fst hf
        rw [ha2, hp] at hsc
        exact hsc
      · rw [if_neg hsc] at hf
        cases hf
  · intro hsc
    refine ⟨item, hmem, ?_⟩
    rw [hp, if_neg (by simp [hkw]), if_pos hsc]

/-- Witness for C10: a single item with product_name None, target "x",
threshold 80: the keyword check passes on "" and the retention condition is
exactly the (here false) comparison 80 ≤ token_set_ratio("x", ""). -/
theorem C10_witness :
    ({ product_name := none, store_name := some "s", price := none, rating := none,
       link := none, thumbnail := none } : WhereToBuyfinalAPIWrapper.Item).product_name
      = none ∧
    WhereToBuyfinalAPIWrapper.negative_keywords.any (fun k => pyIn k "") = false ∧
    ((({ product_name := none, store_name := some "s", price := none, rating := none,
         link := none, thumbnail := none } : WhereToBuyfinalAPIWrapper.Item),
      tokenSetQF (lowerStr "x") "") ∈
        WhereToBuyfinalAPIWrapper.filter_with_fuzzy_matching
          [{ product_name := none, store_name := some "s", price := none,
             rating := none, link := none, thumbnail := none }] "x" 80 ↔
      (80 : ℚ) ≤ tokenSetQF (lowerStr "x") "") :=
  ⟨rfl,
    (C10_missing_name_safe
      [{ product_name := none, store_name := some "s", price := none,
         rating := none, link := none, thumbnail := none }] "x" 80
      { product_name := none, store_name := some "s", price := none,
        rating := none, link := none, thumbnail := none } rfl (by decide)).2.1,
    (C10_missing_name_safe
      [{ product_name := none, store_name := some "s", price := none,
         rating := none, link := none, thumbnail := none }] "x" 80
      { product_name := none, store_name := some "s", price := none,
        rating := none, link := none, thumbnail := none } rfl (by decide)).2.2⟩
